import Mathlib

/-!
Verification of the TCAD TCL command generator (`script_v22_modified.py`).

The development shallowly embeds the command-assembly core of the script:
the naming utilities, the interactive cutplane/cutline set-collection loop
(modelled as a function over the finite stream of raw entries the user
supplies), and the three mode generators, which are pure functions from a
fully populated request structure to the ordered list of emitted command
lines.

Lean's built-in byte-position-based `String` functions (`splitOn`,
`toUpper`, `replace`, `startsWith`, ...) do not reduce inside the kernel,
so the Python string operations used by the script are modelled by
structurally recursive functions on `String.data` with the same semantics
on the inputs the script feeds them.
-/

/-! ### Observation helpers and list-level machinery -/

/-- Boolean test that `p` is a prefix of `s`, computed on the character lists. -/
def strStarts (p s : String) : Bool := p.data.isPrefixOf s.data

/-- Boolean test that `q` is a suffix of `s`, computed on the character lists. -/
def strEnds (q s : String) : Bool := q.data.isSuffixOf s.data

/-- Detects a character mismatch between two lists within their common length:
if `headMismatch p h = true` then `p` cannot be a prefix of any extension of `h`. -/
def headMismatch : List Char → List Char → Bool
  | a :: as, b :: bs => a != b || headMismatch as bs
  | _, _ => false

theorem isPrefixOf_cons₂ (a b : Char) (as bs : List Char) :
    (a :: as).isPrefixOf (b :: bs) = (a == b && as.isPrefixOf bs) := rfl

theorem isPrefixOf_append_of_isPrefixOf (p h t : List Char) (hp : p.isPrefixOf h = true) :
    p.isPrefixOf (h ++ t) = true := by
  rw [List.isPrefixOf_iff_prefix] at hp ⊢
  exact hp.trans (List.prefix_append h t)

theorem isPrefixOf_append_eq_false (p h t : List Char) (hm : headMismatch p h = true) :
    p.isPrefixOf (h ++ t) = false := by
  induction p generalizing h with
  | nil => simp [headMismatch] at hm
  | cons a as ih =>
    cases h with
    | nil => simp [headMismatch] at hm
    | cons b bs =>
      rw [List.cons_append, isPrefixOf_cons₂]
      simp only [headMismatch, Bool.or_eq_true, bne_iff_ne, ne_eq] at hm
      cases hab : a == b with
      | false => simp
      | true =>
        rcases hm with h1 | h2
        · exact absurd (by exact eq_of_beq hab) h1
        · simp [ih bs h2]

/-- Decides `strStarts` when the scrutinee's head literal extends the probe. -/
theorem strStarts_append_true (p h r : String) (hp : p.data.isPrefixOf h.data = true) :
    strStarts p (h ++ r) = true := by
  unfold strStarts
  rw [String.data_append]
  exact isPrefixOf_append_of_isPrefixOf _ _ _ hp

/-- Decides `strStarts` negatively from a mismatch inside the head literal. -/
theorem strStarts_append_false (p h r : String) (hm : headMismatch p.data h.data = true) :
    strStarts p (h ++ r) = false := by
  unfold strStarts
  rw [String.data_append]
  exact isPrefixOf_append_eq_false _ _ _ hm

theorem isSuffixOf_append_of_isSuffixOf (q s a : List Char) (hq : q.isSuffixOf s = true) :
    q.isSuffixOf (a ++ s) = true := by
  unfold List.isSuffixOf at hq ⊢
  rw [List.reverse_append]
  exact isPrefixOf_append_of_isPrefixOf _ _ _ hq

theorem isSuffixOf_self (q : List Char) : q.isSuffixOf q = true := by
  unfold List.isSuffixOf
  rw [List.isPrefixOf_iff_prefix]

/-- Decides `strEnds` when the scrutinee's tail is the probe itself. -/
theorem strEnds_append_self (q a : String) : strEnds q (a ++ q) = true := by
  unfold strEnds
  rw [String.data_append]
  exact isSuffixOf_append_of_isSuffixOf _ _ _ (isSuffixOf_self q.data)

/-- Decides `strEnds` negatively from a mismatch against the tail literal `h`. -/
theorem strEnds_append_false (q h a : String) (hm : headMismatch q.data.reverse h.data.reverse = true) :
    strEnds q (a ++ h) = false := by
  unfold strEnds List.isSuffixOf
  rw [String.data_append, List.reverse_append]
  exact isPrefixOf_append_eq_false _ _ _ hm

/-! ### Models of the Python string operations used by the script -/

/-- Accumulator-based worker for `py_split`. -/
def py_split_aux (acc : List Char) (sep : Char) : List Char → List (List Char)
  | [] => [acc.reverse]
  | c :: rest => if c = sep then acc.reverse :: py_split_aux [] sep rest else py_split_aux (c :: acc) sep rest

/-- Model of Python `str.split(sep)` for a one-character separator: the segments
between occurrences of `sep`, empty segments retained, `[""]` for the empty string. -/
def py_split (sep : Char) (s : String) : List String :=
  (py_split_aux [] sep s.data).map String.mk

/-- Model of Python `str.strip()`: removes leading and trailing whitespace. -/
def py_strip (s : String) : String :=
  String.mk (((s.data.dropWhile Char.isWhitespace).reverse.dropWhile Char.isWhitespace).reverse)

/-- Model of Python `str.upper()`. -/
def py_upper (s : String) : String := String.mk (s.data.map Char.toUpper)

/-- List-level model of Python `str.zfill(width)`: left-pad with `'0'` up to `width`,
keeping a leading sign character in front of the padding. -/
def py_zfill_list (l : List Char) (width : Nat) : List Char :=
  if width ≤ l.length then l
  else
    let pad := List.replicate (width - l.length) '0'
    match l with
    | [] => pad
    | c :: rest => if c = '+' ∨ c = '-' then c :: (pad ++ rest) else pad ++ (c :: rest)

/-- Model of Python `str.zfill(width)`. -/
def py_zfill (s : String) (width : Nat) : String := String.mk (py_zfill_list s.data width)

/-- Fuel-based worker for `py_replace` (fuel bounds the number of scanned positions,
so the recursion is structural and kernel-reducible). -/
def py_replace_aux (pat rep : List Char) : Nat → List Char → List Char
  | _, [] => []
  | 0, l => l
  | fuel + 1, c :: rest =>
    if pat.isPrefixOf (c :: rest) && !pat.isEmpty then
      rep ++ py_replace_aux pat rep fuel (rest.drop (pat.length - 1))
    else c :: py_replace_aux pat rep fuel rest

/-- Model of Python `str.replace(pat, rep)` for a nonempty pattern: replaces every
non-overlapping occurrence, scanning left to right. (The script only calls it with
the pattern `"Plot_"`.) -/
def py_replace (s pat rep : String) : String :=
  String.mk (py_replace_aux pat.data rep.data s.data.length s.data)

/-- Normalisation applied by the script to every user-supplied directory path:
append `'/'` unless the path already ends with it (Python `str.endswith('/')`). -/
def ensure_slash (p : String) : String := if strEnds "/" p then p else p ++ "/"

/-! ### Naming utility (source lines 17–32) -/

/-- Embeds `get_axis_mapping` (source lines 17–20). The Python code computes
`list({"X","Y","Z"} - {a.upper(), b.upper()})[0]`; a Python set iterates in an
unspecified order, but whenever the two axes differ the set difference is a
singleton, so filtering the ordered list `["X","Y","Z"]` is an equivalent
deterministic model on every input the callers are allowed to pass. -/
def get_axis_mapping (cutplane_axis cutline_axis : String) : String :=
  (["X", "Y", "Z"].filter (fun a => a != py_upper cutplane_axis && a != py_upper cutline_axis)).headD ""

/-- Embeds `get_export_variables` (source lines 22–24). -/
def get_export_variables (cutplane_axis cutline_axis parameter : String) : List String :=
  [get_axis_mapping cutplane_axis cutline_axis, parameter]

/-- Embeds `format_tdr_code` (source lines 26–28): `f"00{user_input.zfill(2)}"`. -/
def format_tdr_code (user_input : String) : String := "00" ++ py_zfill user_input 2

/-- Embeds `parse_parameters` (source lines 30–32): split on commas, strip each
segment, keep the segments that are nonempty after stripping. -/
def parse_parameters (param_string : String) : List String :=
  ((py_split ',' param_string).map py_strip).filter (fun p => p != "")

/-- The fixed 23-item parameter enumeration (source lines 67–75, repeated verbatim
at lines 470–478). -/
def parameters : List String :=
  ["ConductionBandEnergy", "ConductionCurrentDensity", "DopingConcentration",
   "EffectiveIntrinsicDensity", "ElectricField", "ElectrostaticPotential",
   "EquilibriumPotential", "Impactionization", "IntrinsicDensity",
   "LatticeTemperature", "QuasiFermiPotential", "SpaceCharge",
   "ValenceBandEnergy", "eAlphaAvalanche", "eCurrentDensity", "eDensity",
   "eMobility", "eQuasiFermiPotential", "hAlphaAvalanche", "hCurrentDensity",
   "hDensity", "hMobility", "hQuasiFermiPotential"]

/-! ### Cutplane/cutline set collection (source lines 81–123 and 505–547)

The interactive `while True` loop consumes one raw entry per iteration. An
axis conflict makes the whole generator return `[]` (modelled as `none`); an
invalid parameter discards the entry and continues the loop (`continue`); a
valid entry is appended, and the loop ends when the `more` answer is not
yes/y. Exhausting the stream also ends the loop in this model. -/

/-- One raw iteration of the interactive set-collection loop: the final
(re-prompt-validated) axes, the positions, the raw parameter string, and the
lowered answer to "another set?". -/
structure RawCutSet where
  cutplane_axis : String
  cutplane_position : String
  cutline_axis : String
  cutline_positions : List String
  param_input : String
  more : String
deriving DecidableEq, Repr

/-- One collected cutplane/cutline set, as stored in `cutplane_cutline_sets`. -/
structure CutSet where
  cutplane_axis : String
  cutplane_position : String
  cutline_axis : String
  cutline_positions : List String
  parameters : List String
deriving DecidableEq, Repr

/-- The set-collection loop shared verbatim by Mode 1 and Mode 3 (source lines
82–123 and 505–547): `none` models the `return []` on an axis conflict. -/
def collect_cutplane_cutline_sets : List RawCutSet → Option (List CutSet)
  | [] => some []
  | r :: rest =>
    if r.cutline_axis = r.cutplane_axis then none
    else
      let param_list := parse_parameters r.param_input
      if param_list.any (fun p => !(parameters.contains p)) then
        collect_cutplane_cutline_sets rest
      else
        let cs : CutSet := ⟨r.cutplane_axis, r.cutplane_position, r.cutline_axis,
                            r.cutline_positions, param_list⟩
        if r.more = "yes" ∨ r.more = "y" then
          (collect_cutplane_cutline_sets rest).map (fun sets => cs :: sets)
        else some [cs]

/-- Normalisation of the Y-axis type answer (source lines 125–127 and 549–551):
an empty (falsy) answer defaults to `log`, anything other than linear/log
falls back to `log`. The stored string is already lowered. -/
def norm_y_axis (s : String) : String :=
  let t := if s = "" then "log" else s
  if t = "linear" ∨ t = "log" then t else "log"

/-- The fixed banner emitted at the start of Mode 1 and Mode 2 output
(source lines 136–141 and 338–343). -/
def tcl_header : List String :=
  ["################################################",
   "# Sentaurus Visual Console - Tcl version 8.6.6 #",
   "################################################",
   "# "]

/-! ### Mode 1 generator (source lines 38–284) -/

/-- The request a completed Mode 1 interview hands to the command assembly.
String answers are stored as entered (`need_last_tdr` and `y_axis_type`
already lowered, as the source lowers them at the prompt). -/
structure Mode1Input where
  node_names : List String
  tdr_codes : List String
  need_last_tdr : String
  base_path : String
  current_value : String
  raw_sets : List RawCutSet
  y_axis_type : String
  csv_export_path : String
  csv_filename : String
deriving DecidableEq, Repr

/-- The file-base naming convention `f"{current_value}_{parameter}_{code}"`
(source lines 161, 177, 585–586). -/
def file_base_name (current_value parameter code : String) : String :=
  current_value ++ ("_" ++ (parameter ++ ("_" ++ code)))

/-- The 8-line load + dataset-plot creation group (source lines 167–172,
183–188 and 589–594). -/
def load_group (base_path file_base : String) : List String :=
  let fname := file_base ++ "_des.tdr"
  let dset := file_base ++ "_des"
  let plot := "Plot_" ++ dset
  ["load_file " ++ (base_path ++ (fname ++ " -fod")),
   "create_plot -dataset " ++ dset,
   "select_plots \x7b" ++ (plot ++ "\x7d"),
   "# " ++ plot, "", "# " ++ plot, "", "# " ++ dset]

/-- The ordered file bases of one Mode 1 parameter run: the node × TDR cross
product (the name does not actually depend on the node), plus, when requested,
the synthetic last entry built from the first node's prefix before `'_'`
(source lines 158–162 and 175–178). -/
def mode1_file_bases (node_names tdr_codes : List String) (current_value parameter : String)
    (need_last : Bool) : List String :=
  (node_names.flatMap (fun _node => tdr_codes.map (fun code => file_base_name current_value parameter code))) ++
  (if need_last then
    [file_base_name current_value parameter ((py_split '_' (node_names.headD "")).headD "")]
   else [])

/-- The plot-linking group over all plots of one parameter run (source lines
190–202 and 596–607). -/
def link_block (file_bases : List String) : List String :=
  let first_plot := "Plot_" ++ ((file_bases.headD "") ++ "_des")
  let all_plots_str := String.intercalate " " (file_bases.map (fun fb => "Plot_" ++ (fb ++ "_des")))
  ["select_plots \x7b" ++ (first_plot ++ "\x7d"),
   "# " ++ first_plot,
   "select_plots \x7b" ++ (all_plots_str ++ "\x7d"),
   "# " ++ all_plots_str,
   "link_plots \x7b" ++ (all_plots_str ++ "\x7d"),
   "# 1"]

/-- Mode 1's field-display group, keyed to the last plot of the list; the
dataset name is recovered with `str.replace("Plot_", "")` (source lines 204–211). -/
def mode1_field_block (parameter : String) (all_plots : List String) : List String :=
  let last_plot := all_plots.getLastD ""
  let last_dset := py_replace last_plot "Plot_" ""
  ["set_field_prop " ++ (parameter ++ (" -plot " ++ (last_plot ++ (" -geom " ++ (last_dset ++ " -show_bands"))))),
   "# 0"]

/-- The cutplane dataset name `f"C{k}({file_base}_des)"` (source lines 220,
225, 625, 630). -/
def cp_dset_name (k : Nat) (file_base : String) : String :=
  "C" ++ (toString k ++ ("(" ++ (file_base ++ "_des)")))

/-- One cutplane-creation group; `k` is the namespacing index (`set_idx` in
Mode 1, `set_parameter_counter` in Mode 3; source lines 213–221 and 618–626). -/
def cutplane_block (k : Nat) (cp_axis cp_pos file_base : String) : List String :=
  let plot := "Plot_" ++ (file_base ++ "_des")
  ["select_plots \x7b" ++ (plot ++ "\x7d"),
   "# " ++ plot,
   "create_cutplane -plot " ++ (plot ++ (" -type " ++ (cp_axis ++ (" -at " ++ cp_pos)))),
   "# " ++ cp_dset_name k file_base]

/-- One cutplane-plot creation group (source lines 223–231 and 628–636). -/
def cutplane_plot_block (k : Nat) (file_base : String) : List String :=
  let cp_dset := cp_dset_name k file_base
  let plot := "Plot_" ++ (file_base ++ "_des")
  ["create_plot -dataset " ++ (cp_dset ++ (" -ref_plot " ++ plot)),
   "select_plots \x7bPlot_" ++ (cp_dset ++ "\x7d"),
   "# Plot_" ++ cp_dset, "", "# Plot_" ++ cp_dset]

/-- The cutline dataset name `f"C1(C{k}({file_base}_des))"`. -/
def cl_dset_name (k : Nat) (file_base : String) : String :=
  "C1(" ++ (cp_dset_name k file_base ++ ")")

/-- Mode 1's cutline-creation group for the file base at position `i`: the
cutline position is indexed `i % len(cl_positions)` (source lines 233–242). -/
def mode1_cutline_block (k : Nat) (cl_axis : String) (cl_positions : List String)
    (i : Nat) (file_base : String) : List String :=
  let cp_plot := "Plot_" ++ cp_dset_name k file_base
  let cl_pos := cl_positions.getD (i % cl_positions.length) ""
  ["select_plots \x7b" ++ (cp_plot ++ "\x7d"),
   "# " ++ cp_plot,
   "create_cutline -plot " ++ (cp_plot ++ (" -type " ++ (cl_axis ++ (" -at " ++ cl_pos)))),
   "# " ++ cl_dset_name k file_base]

/-- Mode 1's cutline loop (`for i, file_base in enumerate(file_bases)`). -/
def mode1_cutlines (k : Nat) (cl_axis : String) (cl_positions : List String) :
    Nat → List String → List String
  | _, [] => []
  | i, fb :: rest =>
    mode1_cutline_block k cl_axis cl_positions i fb ++
    mode1_cutlines k cl_axis cl_positions (i + 1) rest

/-- Mode 1's unified 1D plot name
`f"Plot_C1(C{set_idx}({fb0}_des))_S{set_idx}P{param_idx}"` (source line 245). -/
def mode1_unified_plot (set_idx param_idx : Nat) (fb0 : String) : String :=
  "Plot_" ++ (cl_dset_name set_idx fb0 ++ ("_S" ++ (toString set_idx ++ ("P" ++ toString param_idx))))

/-- Mode 1's unified 1D plot creation group (source lines 244–253). -/
def mode1_unified_block (set_idx param_idx : Nat) (fb0 : String) : List String :=
  let unified := mode1_unified_plot set_idx param_idx fb0
  let first_cl_dset := cl_dset_name set_idx fb0
  ["create_plot -dataset " ++ (first_cl_dset ++ " -1d"),
   "select_plots \x7b" ++ (unified ++ "\x7d"),
   "# " ++ unified, "", "# " ++ unified]

/-- One curve-creation group of Mode 1, labelled with the global curve counter
value `c` (source lines 257–267). -/
def mode1_curve_block (k : Nat) (axis_x parameter y_axis_type unified : String)
    (c : Nat) (file_base : String) : List String :=
  let cl_dset := cl_dset_name k file_base
  ["create_curve -axisX " ++ (axis_x ++ (" -axisY " ++ (parameter ++ (" -dataset \x7b" ++ (cl_dset ++ ("\x7d -plot " ++ unified)))))),
   "# Curve_" ++ toString c,
   "set_axis_prop -plot " ++ (unified ++ (" -axis y -type " ++ y_axis_type)),
   "set_axis_prop -plot " ++ (unified ++ " -axis x -range \x7b-0.9 9.0\x7d"),
   "# 0"]

/-- Mode 1's curve loop: returns the emitted lines, the collected curve names
(`curves_for_this_plot`) and the final counter value. -/
def mode1_curves (k : Nat) (axis_x parameter y_axis_type unified : String) :
    Nat → List String → List String × List String × Nat
  | c, [] => ([], [], c)
  | c, fb :: rest =>
    let res := mode1_curves k axis_x parameter y_axis_type unified (c + 1) rest
    (mode1_curve_block k axis_x parameter y_axis_type unified c fb ++ res.1,
     ("Curve_" ++ toString c) :: res.2.1,
     res.2.2)

/-- Mode 1's CSV export group; the file is named
`f"{csv_export_path}{csv_filename}_set{set_idx}_param_{parameter}.csv"`
(source lines 269–278). -/
def mode1_export_block (set_idx : Nat) (parameter csv_export_path csv_filename unified : String)
    (curve_names : List String) : List String :=
  let names := String.intercalate " " curve_names
  let csv_full_path := csv_export_path ++ (csv_filename ++ ("_set" ++ (toString set_idx ++ ("_param_" ++ (parameter ++ ".csv")))))
  ["select_plots \x7b" ++ (unified ++ "\x7d"),
   "# " ++ unified,
   "export_curves \x7b" ++ (names ++ ("\x7d -plot " ++ (unified ++ (" -filename " ++ (csv_full_path ++ " -format csv"))))),
   "# " ++ csv_full_path]

/-- The non-interactive data of a Mode 1 request, after the prompt-side
normalisations (paths slash-terminated, yes/y folded to a Bool, the Y-axis
type normalised). -/
structure Mode1Ctx where
  node_names : List String
  tdr_codes : List String
  need_last : Bool
  base_path : String
  current_value : String
  y_axis_type : String
  csv_export_path : String
  csv_filename : String
deriving DecidableEq, Repr

/-- One `(set, parameter)` body of Mode 1 (source lines 156–278); returns the
emitted lines and the updated global curve counter. -/
def mode1_param_block (ctx : Mode1Ctx) (set_idx : Nat) (cutset : CutSet)
    (param_idx : Nat) (parameter : String) (curve_counter : Nat) : List String × Nat :=
  let axis_x := get_axis_mapping cutset.cutplane_axis cutset.cutline_axis
  let fbs := mode1_file_bases ctx.node_names ctx.tdr_codes ctx.current_value parameter ctx.need_last
  let all_plots := fbs.map (fun fb => "Plot_" ++ (fb ++ "_des"))
  let unified := mode1_unified_plot set_idx param_idx (fbs.headD "")
  let res := mode1_curves set_idx axis_x parameter ctx.y_axis_type unified curve_counter fbs
  (fbs.flatMap (load_group ctx.base_path) ++
   link_block fbs ++
   mode1_field_block parameter all_plots ++
   fbs.flatMap (cutplane_block set_idx cutset.cutplane_axis cutset.cutplane_position) ++
   fbs.flatMap (cutplane_plot_block set_idx) ++
   mode1_cutlines set_idx cutset.cutline_axis cutset.cutline_positions 0 fbs ++
   mode1_unified_block set_idx param_idx (fbs.headD "") ++
   res.1 ++
   mode1_export_block set_idx parameter ctx.csv_export_path ctx.csv_filename unified res.2.1,
   res.2.2)

/-- The inner `for param_idx, parameter in enumerate(parameters_list)` loop. -/
def mode1_params_loop (ctx : Mode1Ctx) (set_idx : Nat) (cutset : CutSet) :
    Nat → Nat → List String → List String × Nat
  | _, c, [] => ([], c)
  | pi, c, p :: ps =>
    let blk := mode1_param_block ctx set_idx cutset pi p c
    let rest := mode1_params_loop ctx set_idx cutset (pi + 1) blk.2 ps
    (blk.1 ++ rest.1, rest.2)

/-- The outer `for set_idx, cutset in enumerate(sets, start=1)` loop, threading
the global curve counter. -/
def mode1_sets_loop (ctx : Mode1Ctx) : Nat → Nat → List CutSet → List String × Nat
  | _, c, [] => ([], c)
  | si, c, cs :: rest =>
    let blk := mode1_params_loop ctx si cs 0 c cs.parameters
    let restr := mode1_sets_loop ctx (si + 1) blk.2 rest
    (blk.1 ++ restr.1, restr.2)

/-- Assembles the normalised Mode 1 context from the raw request. -/
def mode1_ctx (inp : Mode1Input) : Mode1Ctx :=
  ⟨inp.node_names, inp.tdr_codes, ["yes", "y"].contains inp.need_last_tdr,
   ensure_slash inp.base_path, inp.current_value, norm_y_axis inp.y_axis_type,
   ensure_slash inp.csv_export_path, inp.csv_filename⟩

/-- Embeds `generate_mode1_commands` (source lines 38–284): collect the sets
(aborting with `[]` on an axis conflict), then emit the banner and every
`(set, parameter)` body in order, the curve counter starting at 1. -/
def generate_mode1_commands (inp : Mode1Input) : List String :=
  match collect_cutplane_cutline_sets inp.raw_sets with
  | none => []
  | some sets => tcl_header ++ (mode1_sets_loop (mode1_ctx inp) 1 1 sets).1

/-! ### Mode 2 generator (source lines 290–463) -/

/-- The exceptions relevant to the generators: `indexErr` models Python's
`IndexError` (raised by `nodes_data[0]` on an empty list), the other two are
the exception classes the generators' `except` clause catches. -/
inductive PyErr where
  | indexErr
  | valueErr
  | keyboardInterrupt
deriving DecidableEq, Repr

/-- The exception classes caught by `except (ValueError, KeyboardInterrupt)`
(source lines 282, 461, 684). -/
def mode2_caught : PyErr → Bool
  | .valueErr => true
  | .keyboardInterrupt => true
  | .indexErr => false

/-- The request a completed Mode 2 interview hands to the command assembly. -/
structure Mode2Input where
  base_path : String
  plt_pfx : String
  nodes_data : List (String × String)
  csv_export_path : String
  csv_filename : String
  plot_title : String
  x_axis_title : String
  y_axis_title : String
  y2_axis_title : String
  legend_x : String
  legend_y : String
  png_export_path : String
deriving DecidableEq, Repr

/-- The Mode 2 dataset name `f"{plt_pfx}_{version}_{node_id}_des"`. -/
def mode2_dataset (plt_pfx : String) (vn : String × String) : String :=
  plt_pfx ++ ("_" ++ (vn.1 ++ ("_" ++ (vn.2 ++ "_des"))))

/-- The fixed 6-color palette for the Y2 curves (source line 384). -/
def mode2_colors : List String :=
  ["#ff0000", "#00ff00", "#0000ff", "#ff8000", "#800080", "#008080"]

/-- The four styling commands applied to the Y2 (Tmax) curve of the `i`-th
node pair: curve number `n + 1 + i`, color cycled modulo the palette size
(source lines 383–397). -/
def mode2_y2_style_block (n i : Nat) : List String :=
  let curve_num := n + 1 + i
  let color := mode2_colors.getD (i % mode2_colors.length) ""
  ["set_curve_prop \x7bCurve_" ++ (toString curve_num ++ "\x7d -plot Plot_1 -line_style dash"),
   "# 0",
   "set_curve_prop \x7bCurve_" ++ (toString curve_num ++ "\x7d -plot Plot_1 -line_width 2"),
   "# 0",
   "set_curve_prop \x7bCurve_" ++ (toString curve_num ++ ("\x7d -plot Plot_1 -color " ++ color)),
   "# 0",
   "set_curve_prop \x7bCurve_" ++ (toString curve_num ++ "\x7d -plot Plot_1 -hide_legend"),
   "# 0"]

/-- The width-only styling command applied to the Y-axis (voltage) curve of the
`i`-th node pair: curve number `i + 1` (source lines 399–405). -/
def mode2_y_style_block (i : Nat) : List String :=
  ["set_curve_prop \x7bCurve_" ++ (toString (i + 1) ++ "\x7d -plot Plot_1 -line_width 2"),
   "# 0"]

/-- The relabelling command applied at the end to the `i`-th Y-axis curve
(source lines 443–449). -/
def mode2_label_block (i : Nat) (version : String) : List String :=
  ["set_curve_prop \x7bCurve_" ++ (toString (i + 1) ++ ("\x7d -plot Plot_1 -label \"drain OuterVoltage_" ++ (version ++ "\""))),
   "# 0"]

/-- The full Mode 2 command list, assembled once the first node pair exists
(source lines 335–459). -/
def mode2_cmds (inp : Mode2Input) (first : String × String) : List String :=
  let base_path := ensure_slash inp.base_path
  let csv_export_path := ensure_slash inp.csv_export_path
  let n := inp.nodes_data.length
  let first_filename := inp.plt_pfx ++ ("_" ++ (first.1 ++ ("_" ++ (first.2 ++ "_des.plt"))))
  let first_dataset := mode2_dataset inp.plt_pfx first
  let all_datasets := String.intercalate " " (inp.nodes_data.map (mode2_dataset inp.plt_pfx))
  tcl_header ++
  ["load_file " ++ (base_path ++ first_filename),
   "create_plot -1d",
   "select_plots \x7bPlot_1\x7d",
   "# Plot_1", "", "# Plot_1", "", "# " ++ first_dataset] ++
  (inp.nodes_data.drop 1).flatMap (fun vn =>
    ["load_file " ++ (base_path ++ (inp.plt_pfx ++ ("_" ++ (vn.1 ++ ("_" ++ (vn.2 ++ "_des.plt")))))),
     "# " ++ mode2_dataset inp.plt_pfx vn]) ++
  ["create_curve -axisX time -axisY \x7bdrain OuterVoltage\x7d -dataset \x7b" ++ (all_datasets ++ "\x7d -plot Plot_1"),
   "# " ++ String.intercalate " " ((List.range n).map (fun i => "Curve_" ++ toString (i + 1)))] ++
  ["create_curve -axisX time -axisY2 Tmax -dataset \x7b" ++ (all_datasets ++ "\x7d -plot Plot_1"),
   "# " ++ String.intercalate " " ((List.range n).map (fun i => "Curve_" ++ toString (n + 1 + i)))] ++
  (List.range n).flatMap (mode2_y2_style_block n) ++
  (List.range n).flatMap mode2_y_style_block ++
  ["set_axis_prop -plot Plot_1 -axis y2 -title \"" ++ (inp.y2_axis_title ++ "\""),
   "# 0",
   "set_axis_prop -plot Plot_1 -axis x -title \"" ++ (inp.x_axis_title ++ "\""),
   "# 0",
   "set_axis_prop -plot Plot_1 -axis y -title \"" ++ (inp.y_axis_title ++ "\""),
   "# 0"] ++
  ["set_plot_prop -plot \x7bPlot_1\x7d -title \"" ++ (inp.plot_title ++ "\""),
   "# 0",
   "set_plot_prop -plot \x7bPlot_1\x7d -frame_width 2",
   "# 0"] ++
  ["set_legend_prop -plot Plot_1 -position \x7b" ++ (inp.legend_x ++ (" " ++ (inp.legend_y ++ "\x7d"))),
   "# 0"] ++
  ["export_view \x7b" ++ (inp.png_export_path ++ "\x7d -format png"),
   "# 0"] ++
  ["move_plot -plot Plot_1 -position \x7b0 0\x7d",
   "# 0"] ++
  inp.nodes_data.enum.flatMap (fun iv => mode2_label_block iv.1 iv.2.1) ++
  (let all_curves := String.intercalate " " ((List.range (n * 2)).map (fun i => "Curve_" ++ toString (i + 1)))
   let csv_full_path := csv_export_path ++ (inp.csv_filename ++ ".csv")
   ["export_curves \x7b" ++ (all_curves ++ ("\x7d -plot Plot_1 -filename " ++ (csv_full_path ++ " -format csv"))),
    "# " ++ csv_full_path])

/-- The body of `generate_mode2_commands` up to exceptions: unpacking
`nodes_data[0]` (source line 346) raises `IndexError` on an empty list. -/
def mode2_body (inp : Mode2Input) : Except PyErr (List String) :=
  match inp.nodes_data with
  | [] => .error .indexErr
  | first :: _rest => .ok (mode2_cmds inp first)

/-- Embeds `generate_mode2_commands` (source lines 290–463) together with its
`except (ValueError, KeyboardInterrupt)` handler, which returns `[]`; any other
exception escapes the function. -/
def generate_mode2_commands (inp : Mode2Input) : Except PyErr (List String) :=
  match mode2_body inp with
  | .ok cmds => .ok cmds
  | .error e => if mode2_caught e then .ok [] else .error e

/-! ### Mode 3 generator (source lines 469–686) -/

/-- The request a completed Mode 3 interview hands to the command assembly.
`file_pfx` (the Python `file_prefix` input) is collected by the source (line 494) but never used in any
emitted command. -/
structure Mode3Input where
  tdr_codes : List String
  base_path : String
  file_pfx : String
  current_value : String
  raw_sets : List RawCutSet
  y_axis_type : String
  csv_export_path : String
  csv_filename : String
deriving DecidableEq, Repr

/-- The per-pair banner of Mode 3 (source lines 575–581). -/
def mode3_pair_header (set_idx : Nat) (parameter : String) : List String :=
  ["################################################",
   "# Sentaurus Visual Console - Tcl version 8.6.6 #",
   "################################################",
   "# --- Set " ++ (toString set_idx ++ (", Parameter: " ++ (parameter ++ " ---")))]

/-- Mode 3's field-display group, keyed to the last TDR code's plot and dataset
(source lines 609–616; unlike Mode 1 it rebuilds the dataset name instead of
replacing `"Plot_"`). -/
def mode3_field_block (current_value parameter : String) (tdr_codes : List String) : List String :=
  let last_plot := "Plot_" ++ (file_base_name current_value parameter (tdr_codes.getLastD "") ++ "_des")
  let last_dset := file_base_name current_value parameter (tdr_codes.getLastD "") ++ "_des"
  ["set_field_prop " ++ (parameter ++ (" -plot " ++ (last_plot ++ (" -geom " ++ (last_dset ++ " -show_bands"))))),
   "# 0"]

/-- Mode 3's cutline-creation group for the TDR code at position `tdr_idx`:
the cutline position is indexed strictly by `tdr_idx` — no wraparound, unlike
Mode 1 (source lines 638–647). -/
def mode3_cutline_block (k : Nat) (cl_axis : String) (cl_positions : List String)
    (tdr_idx : Nat) (file_base : String) : List String :=
  let cp_plot := "Plot_" ++ cp_dset_name k file_base
  let cl_pos := cl_positions.getD tdr_idx ""
  ["select_plots \x7b" ++ (cp_plot ++ "\x7d"),
   "# " ++ cp_plot,
   "create_cutline -plot " ++ (cp_plot ++ (" -type " ++ (cl_axis ++ (" -at " ++ cl_pos)))),
   "# " ++ cl_dset_name k file_base]

/-- Mode 3's cutline loop (`for tdr_idx, code in enumerate(tdr_codes)`). -/
def mode3_cutlines (k : Nat) (cl_axis : String) (cl_positions : List String) :
    Nat → List String → List String
  | _, [] => []
  | i, fb :: rest =>
    mode3_cutline_block k cl_axis cl_positions i fb ++
    mode3_cutlines k cl_axis cl_positions (i + 1) rest

/-- Mode 3's per-pair 1D plot name `f"Plot_C1(C{k}({fb0}_des))"` (source line 650). -/
def mode3_unified_name (k : Nat) (fb0 : String) : String :=
  "Plot_" ++ cl_dset_name k fb0

/-- Mode 3's per-pair 1D plot creation group (source lines 649–658). -/
def mode3_unified_block (k : Nat) (fb0 : String) : List String :=
  let plot1d_name := mode3_unified_name k fb0
  let first_cl_dset := cl_dset_name k fb0
  ["create_plot -dataset " ++ (first_cl_dset ++ " -1d"),
   "select_plots \x7b" ++ (plot1d_name ++ "\x7d"),
   "# " ++ plot1d_name, "", "# " ++ plot1d_name]

/-- One curve-creation group of Mode 3; the curve label restarts at 1 for every
`(set, parameter)` pair (`Curve_{tdr_idx+1}`, source lines 660–669). -/
def mode3_curve_block (k : Nat) (axis_x parameter y_axis_type plot1d : String)
    (tdr_idx : Nat) (file_base : String) : List String :=
  let cl_dset := cl_dset_name k file_base
  ["create_curve -axisX " ++ (axis_x ++ (" -axisY " ++ (parameter ++ (" -dataset \x7b" ++ (cl_dset ++ ("\x7d -plot " ++ plot1d)))))),
   "# Curve_" ++ toString (tdr_idx + 1),
   "set_axis_prop -plot " ++ (plot1d ++ (" -axis y -type " ++ y_axis_type)),
   "set_axis_prop -plot " ++ (plot1d ++ " -axis x -range \x7b-0.9 9.0\x7d"),
   "# 0"]

/-- Mode 3's curve loop over the file bases of the pair. -/
def mode3_curves (k : Nat) (axis_x parameter y_axis_type plot1d : String) :
    Nat → List String → List String
  | _, [] => []
  | i, fb :: rest =>
    mode3_curve_block k axis_x parameter y_axis_type plot1d i fb ++
    mode3_curves k axis_x parameter y_axis_type plot1d (i + 1) rest

/-- Mode 3's CSV export group; the file is named
`f"{csv_export_path}{csv_filename}_set{set_idx}_param{param_idx+1}_{parameter}.csv"`
(source lines 671–680). -/
def mode3_export_block (set_idx param_idx : Nat) (parameter csv_export_path csv_filename plot1d : String)
    (n_codes : Nat) : List String :=
  let all_curve_names := String.intercalate " " ((List.range n_codes).map (fun i => "Curve_" ++ toString (i + 1)))
  let csv_full_path := csv_export_path ++ (csv_filename ++ ("_set" ++ (toString set_idx ++ ("_param" ++ (toString (param_idx + 1) ++ ("_" ++ (parameter ++ ".csv")))))))
  ["select_plots \x7b" ++ (plot1d ++ "\x7d"),
   "# " ++ plot1d,
   "export_curves \x7b" ++ (all_curve_names ++ ("\x7d -plot " ++ (plot1d ++ (" -filename " ++ (csv_full_path ++ " -format csv"))))),
   "# " ++ csv_full_path]

/-- The non-interactive data of a Mode 3 request after prompt-side normalisation. -/
structure Mode3Ctx where
  tdr_codes : List String
  base_path : String
  current_value : String
  y_axis_type : String
  csv_export_path : String
  csv_filename : String
deriving DecidableEq, Repr

/-- One `(set, parameter)` body of Mode 3, with `k` the value the
`set_parameter_counter` took for this pair (source lines 564–680). -/
def mode3_pair_block (ctx : Mode3Ctx) (k set_idx param_idx : Nat) (cutset : CutSet)
    (parameter : String) : List String :=
  let axis_x := get_axis_mapping cutset.cutplane_axis cutset.cutline_axis
  let fbs := ctx.tdr_codes.map (file_base_name ctx.current_value parameter)
  let plot1d := mode3_unified_name k (fbs.headD "")
  mode3_pair_header set_idx parameter ++
  fbs.flatMap (load_group ctx.base_path) ++
  link_block fbs ++
  mode3_field_block ctx.current_value parameter ctx.tdr_codes ++
  fbs.flatMap (cutplane_block k cutset.cutplane_axis cutset.cutplane_position) ++
  fbs.flatMap (cutplane_plot_block k) ++
  mode3_cutlines k cutset.cutline_axis cutset.cutline_positions 0 fbs ++
  mode3_unified_block k (fbs.headD "") ++
  mode3_curves k axis_x parameter ctx.y_axis_type plot1d 0 fbs ++
  mode3_export_block set_idx param_idx parameter ctx.csv_export_path ctx.csv_filename plot1d ctx.tdr_codes.length

/-- Mode 3's inner parameter loop: the counter is incremented once at the top
of every `(set, parameter)` iteration and its new value namespaces the pair. -/
def mode3_params_loop (ctx : Mode3Ctx) (set_idx : Nat) (cutset : CutSet) :
    Nat → Nat → List String → List String × Nat
  | _, k, [] => ([], k)
  | pi, k, p :: ps =>
    let blk := mode3_pair_block ctx (k + 1) set_idx pi cutset p
    let rest := mode3_params_loop ctx set_idx cutset (pi + 1) (k + 1) ps
    (blk ++ rest.1, rest.2)

/-- Mode 3's outer set loop (`enumerate(cutplane_cutline_sets, start=1)`),
threading the `set_parameter_counter`. -/
def mode3_sets_loop (ctx : Mode3Ctx) : Nat → Nat → List CutSet → List String × Nat
  | _, k, [] => ([], k)
  | si, k, cs :: rest =>
    let blk := mode3_params_loop ctx si cs 0 k cs.parameters
    let restr := mode3_sets_loop ctx (si + 1) blk.2 rest
    (blk.1 ++ restr.1, restr.2)

/-- Assembles the normalised Mode 3 context from the raw request
(the Python `file_prefix` input is dropped because no emitted command uses it). -/
def mode3_ctx (inp : Mode3Input) : Mode3Ctx :=
  ⟨inp.tdr_codes, ensure_slash inp.base_path, inp.current_value,
   norm_y_axis inp.y_axis_type, ensure_slash inp.csv_export_path, inp.csv_filename⟩

/-- Embeds `generate_mode3_commands` (source lines 469–686): collect the sets
(aborting with `[]` on an axis conflict), then emit every `(set, parameter)`
pair's body in order, the `set_parameter_counter` starting at 0. -/
def generate_mode3_commands (inp : Mode3Input) : List String :=
  match collect_cutplane_cutline_sets inp.raw_sets with
  | none => []
  | some sets => (mode3_sets_loop (mode3_ctx inp) 1 0 sets).1

/-! ### Claims about the naming utility -/

theorem isPrefixOf_nil_left (l : List Char) : List.isPrefixOf ([] : List Char) l = true := by
  cases l <;> rfl

/-- The zero-pad computation of `py_zfill_list` on sign-free digit strings of
length at most 2: plain left-padding with `'0'`. -/
theorem py_zfill_list_digits (l : List Char) (hlen : l.length ≤ 2)
    (hdig : ∀ c ∈ l, c.isDigit = true) :
    py_zfill_list l 2 = List.replicate (2 - l.length) '0' ++ l := by
  match l with
  | [] => simp [py_zfill_list]
  | [c] =>
    have hc := hdig c (by simp)
    have h1 : ¬(c = '+' ∨ c = '-') := by
      rintro (rfl | rfl)
      · exact absurd hc (by decide)
      · exact absurd hc (by decide)
    simp [py_zfill_list, h1]
  | [c, d] => simp [py_zfill_list]
  | c :: d :: e :: rest =>
    exfalso
    simp only [List.length_cons] at hlen
    omega

/-- Claim C7: for every numeric input string of at most 2 digits,
`format_tdr_code` returns `"00"` followed by the input zero-padded to 2
digits, so the result is always exactly 4 digits and always starts with
`"00"`. -/
theorem c7_format_tdr_code (s : String) (hlen : s.length ≤ 2)
    (hdig : ∀ c ∈ s.data, c.isDigit = true) :
    format_tdr_code s = "00" ++ py_zfill s 2 ∧
    (format_tdr_code s).data = '0' :: ('0' :: (List.replicate (2 - s.length) '0' ++ s.data)) ∧
    (format_tdr_code s).length = 4 ∧
    strStarts "00" (format_tdr_code s) = true ∧
    ∀ c ∈ (format_tdr_code s).data, c.isDigit = true := by
  obtain ⟨l⟩ := s
  simp only [String.length_mk] at hlen ⊢
  have hdig' : ∀ c ∈ l, c.isDigit = true := hdig
  have hz := py_zfill_list_digits l hlen hdig'
  have hd : (format_tdr_code (String.mk l)).data =
      '0' :: ('0' :: (List.replicate (2 - l.length) '0' ++ l)) := by
    show ("00" ++ py_zfill (String.mk l) 2).data = _
    rw [String.data_append]
    show ['0', '0'] ++ py_zfill_list l 2 = _
    rw [hz]
    simp
  refine ⟨rfl, hd, ?_, ?_, ?_⟩
  · have hl : (format_tdr_code (String.mk l)).length = (format_tdr_code (String.mk l)).data.length := rfl
    rw [hl, hd]
    simp [List.length_append, List.length_replicate]
    omega
  · show ("00".data).isPrefixOf (format_tdr_code (String.mk l)).data = true
    rw [hd]
    show (['0', '0']).isPrefixOf _ = true
    simp [isPrefixOf_cons₂, isPrefixOf_nil_left]
  · intro c hc
    rw [hd] at hc
    simp only [List.mem_cons, List.mem_append, List.mem_replicate] at hc
    rcases hc with rfl | rfl | ⟨-, rfl⟩ | hmem
    · decide
    · decide
    · decide
    · exact hdig' c hmem

/-- Witness for C7 at the spec's own examples `"2"` and `"15"`. -/
theorem c7_witness :
    (("2" : String).length ≤ 2 ∧ ∀ c ∈ ("2" : String).data, c.isDigit = true) ∧
    (format_tdr_code "2").length = 4 ∧ strStarts "00" (format_tdr_code "2") = true ∧
    format_tdr_code "2" = "0002" ∧ format_tdr_code "15" = "0015" :=
  ⟨⟨by decide, by decide⟩,
   (c7_format_tdr_code "2" (by decide) (by decide)).2.2.1,
   (c7_format_tdr_code "2" (by decide) (by decide)).2.2.2.1,
   by decide, by decide⟩

/-- Claim C8: for every pair of axis letters from x/y/z in either case with
distinct uppercasings, `get_axis_mapping` returns the unique element of
`{X, Y, Z}` equal to neither input. -/
theorem c8_get_axis_mapping :
    ∀ a ∈ ["x", "y", "z", "X", "Y", "Z"], ∀ b ∈ ["x", "y", "z", "X", "Y", "Z"],
      py_upper a ≠ py_upper b →
        get_axis_mapping a b ∈ ["X", "Y", "Z"] ∧
        get_axis_mapping a b ≠ py_upper a ∧ get_axis_mapping a b ≠ py_upper b := by
  decide

/-- Witness for C8 at the pair `("x", "y")`. -/
theorem c8_witness :
    py_upper "x" ≠ py_upper "y" ∧
    (get_axis_mapping "x" "y" ∈ ["X", "Y", "Z"] ∧
     get_axis_mapping "x" "y" ≠ py_upper "x" ∧ get_axis_mapping "x" "y" ≠ py_upper "y") :=
  ⟨by decide, c8_get_axis_mapping "x" (by decide) "y" (by decide) (by decide)⟩

/-- Claim C9: `parse_parameters` splits on commas, strips each segment, drops
the segments that are empty after stripping, and preserves order and
duplicates; in particular on the spec's example. -/
theorem c9_parse_parameters :
    parse_parameters " eDensity ,hDensity, ,X" = ["eDensity", "hDensity", "X"] ∧
    parse_parameters "eDensity, eDensity" = ["eDensity", "eDensity"] ∧
    (∀ s : String, (parse_parameters s).Sublist ((py_split ',' s).map py_strip)) ∧
    (∀ s : String, ∀ x ∈ parse_parameters s, x ≠ "") := by
  refine ⟨by decide, by decide, fun s => List.filter_sublist _, fun s x hx => ?_⟩
  have hf := List.of_mem_filter hx
  simpa using hf

/-- Witness for C9: the nonemptiness guarantee applied to an element of the
spec's example. -/
theorem c9_witness :
    "eDensity" ∈ parse_parameters " eDensity ,hDensity, ,X" ∧ "eDensity" ≠ "" :=
  ⟨by decide, c9_parse_parameters.2.2.2 " eDensity ,hDensity, ,X" "eDensity" (by decide)⟩

/-! ### Claim about Mode 2's behaviour on an empty node list -/

/-- Claim C10: invoking Mode 2 with an empty `nodes_data` list does not yield
an empty command list: unpacking `nodes_data[0]` raises `IndexError`, which
the `except (ValueError, KeyboardInterrupt)` clause does not catch, so the
error escapes the generator. -/
theorem c10_mode2_empty_nodes (inp : Mode2Input) (h : inp.nodes_data = []) :
    generate_mode2_commands inp = Except.error PyErr.indexErr ∧
    mode2_caught PyErr.indexErr = false ∧
    generate_mode2_commands inp ≠ Except.ok [] := by
  have hb : mode2_body inp = Except.error PyErr.indexErr := by
    unfold mode2_body
    rw [h]
  have h1 : generate_mode2_commands inp = Except.error PyErr.indexErr := by
    unfold generate_mode2_commands
    rw [hb]
    rfl
  exact ⟨h1, by decide, by rw [h1]; simp⟩

/-- Witness input for C10: a Mode 2 request with zero node pairs. -/
def c10_input : Mode2Input :=
  ⟨"b", "P", [], "c", "f", "t", "x", "y", "y2", "lx", "ly", "png"⟩

/-- Witness for C10 at the concrete empty-nodes request. -/
theorem c10_witness :
    c10_input.nodes_data = [] ∧
    generate_mode2_commands c10_input = Except.error PyErr.indexErr :=
  ⟨rfl, (c10_mode2_empty_nodes c10_input rfl).1⟩

/-! ### Decimal-representation facts used for identifier non-collision -/


theorem toDigitsCore_eq_digits (n : Nat) (hn : 0 < n) :
    ∀ (fuel : Nat) (ds : List Char), n < fuel →
      Nat.toDigitsCore 10 fuel n ds = ((Nat.digits 10 n).map Nat.digitChar).reverse ++ ds := by
  induction n using Nat.strong_induction_on with
  | _ n ih =>
    intro fuel ds hf
    cases fuel with
    | zero => omega
    | succ f =>
      have hstep : Nat.toDigitsCore 10 (f + 1) n ds =
          (if n / 10 = 0 then (n % 10).digitChar :: ds
           else Nat.toDigitsCore 10 f (n / 10) ((n % 10).digitChar :: ds)) := rfl
      rw [hstep]
      by_cases h0 : n / 10 = 0
      · rw [if_pos h0]
        have hd : Nat.digits 10 n = [n % 10] := by
          rw [Nat.digits_def' (by norm_num : (1 : Nat) < 10) hn, h0, Nat.digits_zero]
        rw [hd]
        simp
      · rw [if_neg h0]
        have hlt : n / 10 < n := Nat.div_lt_self hn (by norm_num)
        have hpos : 0 < n / 10 := Nat.pos_of_ne_zero h0
        rw [ih (n / 10) hlt hpos f ((n % 10).digitChar :: ds) (by omega)]
        rw [Nat.digits_def' (by norm_num : (1 : Nat) < 10) hn]
        simp

theorem repr_pos_eq (n : Nat) (hn : 0 < n) :
    Nat.repr n = ((Nat.digits 10 n).map Nat.digitChar).reverse.asString := by
  show (Nat.toDigits 10 n).asString = _
  rw [show Nat.toDigits 10 n = Nat.toDigitsCore 10 (n + 1) n [] from rfl]
  rw [toDigitsCore_eq_digits n hn (n + 1) [] (by omega)]
  rw [List.append_nil]

theorem digitChar_inj_lt : ∀ a < 10, ∀ b < 10, Nat.digitChar a = Nat.digitChar b → a = b := by
  decide

theorem digitChar_isDigit : ∀ a < 10, (Nat.digitChar a).isDigit = true := by decide

theorem map_digitChar_inj (l₁ : List Nat) :
    ∀ (l₂ : List Nat), (∀ x ∈ l₁, x < 10) → (∀ x ∈ l₂, x < 10) →
      l₁.map Nat.digitChar = l₂.map Nat.digitChar → l₁ = l₂ := by
  induction l₁ with
  | nil =>
    intro l₂ _ _ h
    cases l₂ with
    | nil => rfl
    | cons b bs => simp at h
  | cons a as ih =>
    intro l₂ h₁ h₂ h
    cases l₂ with
    | nil => simp at h
    | cons b bs =>
      simp only [List.map_cons, List.cons.injEq] at h
      have ha : a = b :=
        digitChar_inj_lt a (h₁ a (by simp)) b (h₂ b (by simp)) h.1
      have hb : as = bs := ih bs (fun x hx => h₁ x (by simp [hx])) (fun x hx => h₂ x (by simp [hx])) h.2
      rw [ha, hb]

theorem repr_eq_zero_str (n : Nat) (h : Nat.repr n = "0") : n = 0 := by
  by_contra hne
  have hn : 0 < n := Nat.pos_of_ne_zero hne
  rw [repr_pos_eq n hn] at h
  have hdata : ((Nat.digits 10 n).map Nat.digitChar).reverse = ('0' :: []) :=
    congrArg String.data h
  have hmap : (Nat.digits 10 n).map Nat.digitChar = ['0'] := by
    have h2 := congrArg List.reverse hdata
    simpa using h2
  have hlen : (Nat.digits 10 n).length = 1 := by
    have h3 := congrArg List.length hmap
    simpa using h3
  obtain ⟨d, hd⟩ := List.length_eq_one.1 hlen
  rw [hd] at hmap
  simp only [List.map_cons, List.map_nil, List.cons.injEq, and_true] at hmap
  have hdmem : d ∈ Nat.digits 10 n := by
    rw [hd]
    exact List.mem_singleton_self d
  have hd10 : d < 10 := Nat.digits_lt_base (by norm_num) hdmem
  have hd0 : d = 0 := digitChar_inj_lt d hd10 0 (by norm_num) hmap
  have h4 := congrArg (Nat.ofDigits 10) (show Nat.digits 10 n = [0] by rw [hd, hd0])
  rw [Nat.ofDigits_digits] at h4
  simp only [Nat.ofDigits_cons, Nat.ofDigits_nil] at h4
  exact hne (by exact_mod_cast h4)

theorem nat_repr_inj (m n : Nat) (h : Nat.repr m = Nat.repr n) : m = n := by
  rcases Nat.eq_zero_or_pos m with rfl | hm
  · exact (repr_eq_zero_str n h.symm).symm
  · rcases Nat.eq_zero_or_pos n with rfl | hn
    · exact repr_eq_zero_str m h
    · rw [repr_pos_eq m hm, repr_pos_eq n hn] at h
      have hdata : ((Nat.digits 10 m).map Nat.digitChar).reverse =
          ((Nat.digits 10 n).map Nat.digitChar).reverse := congrArg String.data h
      have hmap : (Nat.digits 10 m).map Nat.digitChar = (Nat.digits 10 n).map Nat.digitChar := by
        have h2 := congrArg List.reverse hdata
        simpa using h2
      have hdig : Nat.digits 10 m = Nat.digits 10 n :=
        map_digitChar_inj _ _ (fun x hx => Nat.digits_lt_base (by norm_num) hx)
          (fun x hx => Nat.digits_lt_base (by norm_num) hx) hmap
      have h4 := congrArg (Nat.ofDigits 10) hdig
      have h5 : ((Nat.ofDigits 10 (Nat.digits 10 m) : ℕ)) = Nat.ofDigits 10 (Nat.digits 10 n) := h4
      rwa [Nat.ofDigits_digits, Nat.ofDigits_digits] at h5

theorem repr_all_digits (n : Nat) : ∀ c ∈ (Nat.repr n).data, c.isDigit = true := by
  rcases Nat.eq_zero_or_pos n with rfl | hn
  · intro c hc
    simp only [show (Nat.repr 0).data = ['0'] from rfl, List.mem_singleton] at hc
    subst hc
    decide
  · rw [repr_pos_eq n hn]
    intro c hc
    have hc' : c ∈ (Nat.digits 10 n).map Nat.digitChar := by
      simpa using (List.mem_reverse.1 hc)
    obtain ⟨d, hd, rfl⟩ := List.mem_map.1 hc'
    exact digitChar_isDigit d (Nat.digits_lt_base (by norm_num) hd)

theorem digit_run_delim (u : List Char) :
    ∀ (v x y : List Char), (∀ c ∈ u, c.isDigit = true) → (∀ c ∈ v, c.isDigit = true) →
      u ++ '(' :: x = v ++ '(' :: y → u = v := by
  induction u with
  | nil =>
    intro v x y _ hv h
    cases v with
    | nil => rfl
    | cons c vs =>
      exfalso
      simp only [List.nil_append, List.cons_append, List.cons.injEq] at h
      have hc : c.isDigit = true := hv c (by simp)
      rw [← h.1] at hc
      exact absurd hc (by decide)
  | cons c us ih =>
    intro v x y hu hv h
    cases v with
    | nil =>
      exfalso
      simp only [List.nil_append, List.cons_append, List.cons.injEq] at h
      have hc : c.isDigit = true := hu c (by simp)
      rw [h.1] at hc
      exact absurd hc (by decide)
    | cons c' vs =>
      simp only [List.cons_append, List.cons.injEq] at h
      have htail : us = vs :=
        ih vs x y (fun a ha => hu a (by simp [ha])) (fun a ha => hv a (by simp [ha])) h.2
      rw [h.1, htail]

theorem toString_nat_data_digits (k : Nat) : ∀ c ∈ (toString k).data, c.isDigit = true :=
  repr_all_digits k

theorem cp_dset_name_ne (k₁ k₂ : Nat) (a b : String) (hk : k₁ ≠ k₂) :
    cp_dset_name k₁ a ≠ cp_dset_name k₂ b := by
  intro h
  apply hk
  have hdata := congrArg String.data h
  simp only [cp_dset_name, String.data_append] at hdata
  have hdata' : (toString k₁).data ++ ('(' :: (a.data ++ "_des)".data)) =
      (toString k₂).data ++ ('(' :: (b.data ++ "_des)".data)) := by
    have h2 : ('C' :: ((toString k₁).data ++ ('(' :: (a.data ++ "_des)".data)))) =
        ('C' :: ((toString k₂).data ++ ('(' :: (b.data ++ "_des)".data)))) := hdata
    exact (List.cons.injEq _ _ _ _ ▸ h2).2
  have hu := digit_run_delim _ _ _ _ (toString_nat_data_digits k₁) (toString_nat_data_digits k₂) hdata'
  exact nat_repr_inj _ _ (String.ext hu)

theorem cl_dset_name_ne (k₁ k₂ : Nat) (a b : String) (hk : k₁ ≠ k₂) :
    cl_dset_name k₁ a ≠ cl_dset_name k₂ b := by
  intro h
  apply cp_dset_name_ne k₁ k₂ a b hk
  have hdata := congrArg String.data h
  simp only [cl_dset_name, cp_dset_name, String.data_append] at hdata
  have hdata' : (toString k₁).data ++ ('(' :: (a.data ++ "_des)".data ++ [')'])) =
      (toString k₂).data ++ ('(' :: (b.data ++ "_des)".data ++ [')'])) := by
    have h2 := hdata
    simp only [List.cons_append, List.nil_append, List.append_assoc] at h2 ⊢
    exact (by
      have h3 : ('C' :: ('1' :: ('(' :: ('C' :: ((toString k₁).data ++ ('(' :: (a.data ++ ("_des)".data ++ [')']))))))))
          = ('C' :: ('1' :: ('(' :: ('C' :: ((toString k₂).data ++ ('(' :: (b.data ++ ("_des)".data ++ [')'])))))))) := h2
      have h4 := (List.cons.injEq _ _ _ _ ▸ h3).2
      have h5 := (List.cons.injEq _ _ _ _ ▸ h4).2
      have h6 := (List.cons.injEq _ _ _ _ ▸ h5).2
      have h7 := (List.cons.injEq _ _ _ _ ▸ h6).2
      simpa [List.append_assoc] using h7)
  have hu := digit_run_delim _ _ _ _ (toString_nat_data_digits k₁) (toString_nat_data_digits k₂) hdata'
  have hts : toString k₁ = toString k₂ := String.ext hu
  exact absurd (nat_repr_inj _ _ hts) hk

/-! ### Claim C5: validation/abort policy of Modes 1 and 3 -/

theorem contains_eq_true_iff (l : List String) (a : String) : l.contains a = true ↔ a ∈ l := by
  simp [List.contains_eq_any_beq, List.any_eq_true]

/-- Claim C5 (amended): an axis conflict aborts the whole generation and
returns the empty list, in Mode 1 and Mode 3 alike. An out-of-enumeration
parameter, however, does not abort: the collection loop discards the
offending entry and continues, so while no command of a rejected set is ever
emitted (every collected set carries only enumerated parameters and distinct
axes), previously or subsequently collected valid sets still produce their
commands. -/
theorem c5_validation (raws : List RawCutSet) (inp1 : Mode1Input) (inp3 : Mode3Input) :
    (∀ (r : RawCutSet) (rest : List RawCutSet), r.cutline_axis = r.cutplane_axis →
        collect_cutplane_cutline_sets (r :: rest) = none) ∧
    (collect_cutplane_cutline_sets inp1.raw_sets = none → generate_mode1_commands inp1 = []) ∧
    (collect_cutplane_cutline_sets inp3.raw_sets = none → generate_mode3_commands inp3 = []) ∧
    (∀ (r : RawCutSet) (rest : List RawCutSet), r.cutline_axis ≠ r.cutplane_axis →
        (∃ p ∈ parse_parameters r.param_input, p ∉ parameters) →
        collect_cutplane_cutline_sets (r :: rest) = collect_cutplane_cutline_sets rest) ∧
    (∀ sets, collect_cutplane_cutline_sets raws = some sets →
        ∀ s ∈ sets, (∀ p ∈ s.parameters, p ∈ parameters) ∧ s.cutplane_axis ≠ s.cutline_axis) := by
  refine ⟨?_, ?_, ?_, ?_, ?_⟩
  · intro r rest h
    simp [collect_cutplane_cutline_sets, h]
  · intro h
    unfold generate_mode1_commands
    rw [h]
  · intro h
    unfold generate_mode3_commands
    rw [h]
  · intro r rest hax hex
    obtain ⟨p, hp, hnp⟩ := hex
    have hany : (parse_parameters r.param_input).any (fun p => !(parameters.contains p)) = true := by
      rw [List.any_eq_true]
      refine ⟨p, hp, ?_⟩
      simp only [Bool.not_eq_true']
      rw [← Bool.not_eq_true]
      intro hc
      exact hnp ((contains_eq_true_iff _ _).1 hc)
    simp only [collect_cutplane_cutline_sets]
    rw [if_neg hax, if_pos hany]
  · induction raws with
    | nil =>
      intro sets h s hs
      simp only [collect_cutplane_cutline_sets, Option.some.injEq] at h
      rw [← h] at hs
      simp at hs
    | cons r rest ih =>
      intro sets h s hs
      simp only [collect_cutplane_cutline_sets] at h
      by_cases hax : r.cutline_axis = r.cutplane_axis
      · rw [if_pos hax] at h
        cases h
      · rw [if_neg hax] at h
        by_cases hinv : (parse_parameters r.param_input).any (fun p => !(parameters.contains p)) = true
        · rw [if_pos hinv] at h
          exact ih sets h s hs
        · rw [if_neg hinv] at h
          have hvalid : ∀ p ∈ parse_parameters r.param_input, p ∈ parameters := by
            intro p hp
            by_contra hnp
            apply hinv
            rw [List.any_eq_true]
            refine ⟨p, hp, ?_⟩
            simp only [Bool.not_eq_true']
            rw [← Bool.not_eq_true]
            intro hc
            exact hnp ((contains_eq_true_iff _ _).1 hc)
          by_cases hm : r.more = "yes" ∨ r.more = "y"
          · rw [if_pos hm] at h
            cases hrest : collect_cutplane_cutline_sets rest with
            | none =>
              rw [hrest] at h
              cases h
            | some sets' =>
              rw [hrest] at h
              simp only [Option.map_some', Option.some.injEq] at h
              rw [← h] at hs
              rcases List.mem_cons.1 hs with rfl | hs'
              · exact ⟨hvalid, fun he => hax he.symm⟩
              · exact ih sets' hrest s hs'
          · rw [if_neg hm] at h
            simp only [Option.some.injEq] at h
            rw [← h] at hs
            rcases List.mem_cons.1 hs with rfl | hs'
            · exact ⟨hvalid, fun he => hax he.symm⟩
            · simp at hs'

/-- Counterexample input for C5: three raw entries — a valid set, a set with
the out-of-enumeration parameter `"X"`, and another valid set. -/
def c5_input : Mode1Input :=
  ⟨["n1"], ["0001"], "no", "b/", "Iv",
   [⟨"x", "0.1", "y", ["q"], "eDensity", "yes"⟩,
    ⟨"x", "0.1", "y", ["q"], "X", "yes"⟩,
    ⟨"x", "0.1", "y", ["q"], "hDensity", "no"⟩], "log", "c/", "f"⟩

/-- Counterexample to C5 as stated: a request that supplies the parameter
`"X"`, which is not in the 23-item enumeration, yet the generation does not
return an empty result — the surrounding valid sets still produce commands
(the invalid entry is merely discarded and re-collected). -/
theorem c5_counterexample :
    parse_parameters "X" = ["X"] ∧
    "X" ∉ parameters ∧
    (c5_input.raw_sets.map RawCutSet.param_input).contains "X" = true ∧
    generate_mode1_commands c5_input ≠ [] := by
  refine ⟨by decide, by decide, by decide, ?_⟩
  decide

/-- A Mode 3 request used to instantiate `c5_validation` in its witness. -/
def c5_input3 : Mode3Input :=
  ⟨["0001"], "b", "p", "Iv", [⟨"x", "0.1", "x", ["q"], "eDensity", "no"⟩], "log", "c", "f"⟩

/-- A Mode 1 request whose single raw entry has cutplane axis = cutline axis. -/
def c5_conflict_input : Mode1Input :=
  ⟨["n1"], ["0001"], "no", "b/", "Iv",
   [⟨"x", "0.1", "x", ["q"], "eDensity", "no"⟩], "log", "c/", "f"⟩

/-- Witness for C5 (amended) at a concrete axis-conflict request: collection
aborts with `none` and both generators return the empty list. -/
theorem c5_witness :
    collect_cutplane_cutline_sets c5_conflict_input.raw_sets = none ∧
    generate_mode1_commands c5_conflict_input = [] ∧
    generate_mode3_commands c5_input3 = [] := by
  have h1 : collect_cutplane_cutline_sets c5_conflict_input.raw_sets = none :=
    (c5_validation [] c5_conflict_input c5_input3).1 ⟨"x", "0.1", "x", ["q"], "eDensity", "no"⟩ [] rfl
  have h3 : collect_cutplane_cutline_sets c5_input3.raw_sets = none :=
    (c5_validation [] c5_conflict_input c5_input3).1 ⟨"x", "0.1", "x", ["q"], "eDensity", "no"⟩ [] rfl
  exact ⟨h1, (c5_validation [] c5_conflict_input c5_input3).2.1 h1,
         (c5_validation [] c5_conflict_input c5_input3).2.2.1 h3⟩

/-! ### Claim C3: Mode 1 cutline indexing -/

theorem flatMap_const_length (nn : List String) (f : String → List String) (k : Nat)
    (hf : ∀ x, (f x).length = k) : (nn.flatMap f).length = nn.length * k := by
  induction nn with
  | nil => simp
  | cons n ns ih =>
    rw [List.flatMap_cons, List.length_append, hf n, ih, List.length_cons]
    ring

/-- Claim C3 (amended): Mode 1's cutline for the file base at position `i`
takes the cutline position at index `i % len(cutline positions)` — wraparound,
never an out-of-bounds index. The synthetic FileBase, however, sits at
position `|nodes| · |tdrs|`, and since the position list has one entry per
TDR code, `(|nodes| · |tdrs|) % |tdrs| = 0`: the synthetic entry reuses the
FIRST TDR's cutline position (which coincides with the last TDR's only when
there is a single TDR code). -/
theorem c3_cutline_indexing (k i : Nat) (cl_axis : String) (cl_positions : List String)
    (node_names tdr_codes : List String) (current_value parameter fb : String) :
    (mode1_cutline_block k cl_axis cl_positions i fb).getD 2 "" =
      "create_cutline -plot " ++ (("Plot_" ++ cp_dset_name k fb) ++
        (" -type " ++ (cl_axis ++ (" -at " ++ cl_positions.getD (i % cl_positions.length) "")))) ∧
    (cl_positions ≠ [] → i % cl_positions.length < cl_positions.length) ∧
    (mode1_file_bases node_names tdr_codes current_value parameter true).length =
      node_names.length * tdr_codes.length + 1 ∧
    (cl_positions.length = tdr_codes.length →
      mode1_cutline_block k cl_axis cl_positions (node_names.length * tdr_codes.length) fb =
        mode1_cutline_block k cl_axis cl_positions 0 fb) := by
  refine ⟨rfl, ?_, ?_, ?_⟩
  · intro h
    exact Nat.mod_lt _ (List.length_pos.2 h)
  · unfold mode1_file_bases
    rw [List.length_append]
    rw [flatMap_const_length node_names _ tdr_codes.length (fun x => by rw [List.length_map])]
    simp
  · intro hlen
    unfold mode1_cutline_block
    rw [hlen, Nat.mul_mod_left, Nat.zero_mod]

/-- Counterexample input for C3: one node, two TDR codes with distinct
cutline positions, and the synthetic-last-TDR flag set. -/
def c3_input : Mode1Input :=
  ⟨["n1_a"], ["0001", "0002"], "yes", "b/", "Iv",
   [⟨"x", "0.5", "y", ["p1", "p2"], "eDensity", "no"⟩], "log", "c/", "f"⟩

/-- Counterexample to C3 as stated: with 1 node, 2 TDR codes and cutline
positions `p1`, `p2`, the synthetic FileBase's cutline is created at `p1`
(the first TDR's position), not at the last TDR's position `p2`. -/
theorem c3_counterexample :
    (generate_mode1_commands c3_input).contains
        "create_cutline -plot Plot_C1(Iv_eDensity_n1_des) -type y -at p1" = true ∧
    (generate_mode1_commands c3_input).contains
        "create_cutline -plot Plot_C1(Iv_eDensity_n1_des) -type y -at p2" = false ∧
    (c3_input.raw_sets.headD ⟨"", "", "", [], "", ""⟩).cutline_positions.getLastD "" = "p2" := by
  refine ⟨?_, ?_, by decide⟩
  · decide
  · decide

/-- Witness for C3 (amended) at `1 node × 2 TDRs`: the wraparound index is in
bounds and the synthetic entry's block equals the index-0 block. -/
theorem c3_witness :
    ((["p1", "p2"] : List String) ≠ [] ∧ 2 % (["p1", "p2"] : List String).length < (["p1", "p2"] : List String).length) ∧
    ((["p1", "p2"] : List String).length = (["0001", "0002"] : List String).length ∧
     mode1_cutline_block 1 "y" ["p1", "p2"] ((["n1_a"] : List String).length * (["0001", "0002"] : List String).length) "Iv_eDensity_n1" =
       mode1_cutline_block 1 "y" ["p1", "p2"] 0 "Iv_eDensity_n1") :=
  ⟨⟨by decide,
    (c3_cutline_indexing 1 2 "y" ["p1", "p2"] ["n1_a"] ["0001", "0002"] "Iv" "eDensity" "Iv_eDensity_n1").2.1 (by decide)⟩,
   ⟨by decide,
    (c3_cutline_indexing 1 2 "y" ["p1", "p2"] ["n1_a"] ["0001", "0002"] "Iv" "eDensity" "Iv_eDensity_n1").2.2.2 (by decide)⟩⟩

/-! ### Claim C6: Mode 3 strict cutline indexing and CSV naming -/

theorem mem_mode3_cutlines (k : Nat) (ax : String) (ps : List String) :
    ∀ (fbs : List String) (i0 i : Nat), i < fbs.length →
      ∀ x ∈ mode3_cutline_block k ax ps (i0 + i) (fbs.getD i ""),
        x ∈ mode3_cutlines k ax ps i0 fbs := by
  intro fbs
  induction fbs with
  | nil =>
    intro i0 i hi
    simp at hi
  | cons fb rest ih =>
    intro i0 i hi x hx
    cases i with
    | zero =>
      rw [Nat.add_zero] at hx
      simp only [List.getD_cons_zero] at hx
      simp only [mode3_cutlines]
      exact List.mem_append_left _ hx
    | succ j =>
      have hx' : x ∈ mode3_cutline_block k ax ps ((i0 + 1) + j) (rest.getD j "") := by
        rw [show (i0 + 1) + j = i0 + (j + 1) by omega]
        simpa [List.getD_cons_succ] using hx
      simp only [mode3_cutlines]
      refine List.mem_append_right _ (ih (i0 + 1) j ?_ x hx')
      simp only [List.length_cons] at hi
      omega

/-- Claim C6: in Mode 3 the cutline for the TDR code at position `i` uses the
cutline position at the same index `i` (strict 1:1, no wraparound), and the
CSV export of each `(set, parameter)` pair is named
`{csvPath}{csvFilename}_set{setIndex}_param{paramIdxWithinSet+1}_{parameter}.csv`,
the set index 1-based and the within-set parameter index rendered 1-based. -/
theorem c6_mode3_strict (ctx : Mode3Ctx) (k set_idx param_idx : Nat) (cutset : CutSet)
    (parameter : String) (i : Nat) (hi : i < ctx.tdr_codes.length) :
    ("create_cutline -plot " ++
        (("Plot_" ++ cp_dset_name k ((ctx.tdr_codes.map (file_base_name ctx.current_value parameter)).getD i "")) ++
          (" -type " ++ (cutset.cutline_axis ++ (" -at " ++ cutset.cutline_positions.getD i ""))))) ∈
      mode3_pair_block ctx k set_idx param_idx cutset parameter ∧
    ("# " ++ (ctx.csv_export_path ++ (ctx.csv_filename ++ ("_set" ++ (toString set_idx ++
        ("_param" ++ (toString (param_idx + 1) ++ ("_" ++ (parameter ++ ".csv"))))))))) ∈
      mode3_pair_block ctx k set_idx param_idx cutset parameter := by
  constructor
  · have hlen : i < (ctx.tdr_codes.map (file_base_name ctx.current_value parameter)).length := by
      rw [List.length_map]
      exact hi
    have hmem := mem_mode3_cutlines k cutset.cutline_axis cutset.cutline_positions
      (ctx.tdr_codes.map (file_base_name ctx.current_value parameter)) 0 i hlen
      ("create_cutline -plot " ++
        (("Plot_" ++ cp_dset_name k ((ctx.tdr_codes.map (file_base_name ctx.current_value parameter)).getD i "")) ++
          (" -type " ++ (cutset.cutline_axis ++ (" -at " ++ cutset.cutline_positions.getD i ""))))) ?_
    · simp only [mode3_pair_block]
      exact List.mem_append_left _ (List.mem_append_left _ (List.mem_append_left _
        (List.mem_append_right _ hmem)))
    · simp only [mode3_cutline_block, Nat.zero_add]
      exact List.mem_cons_of_mem _ (List.mem_cons_of_mem _ (List.mem_cons_self _ _))
  · simp only [mode3_pair_block]
    refine List.mem_append_right _ ?_
    simp only [mode3_export_block]
    exact List.mem_cons_of_mem _ (List.mem_cons_of_mem _ (List.mem_cons_of_mem _
      (List.mem_cons_self _ _)))

/-- Witness for C6: the second TDR code's cutline uses the second cutline
position, and the CSV comment names `..._set1_param1_eDensity.csv`. -/
theorem c6_witness :
    1 < (["0001", "0002"] : List String).length ∧
    ("create_cutline -plot Plot_C1(Iv_eDensity_0002_des) -type y -at p2" ∈
      mode3_pair_block ⟨["0001", "0002"], "b/", "Iv", "log", "c/", "f"⟩ 1 1 0
        ⟨"x", "0.5", "y", ["p1", "p2"], ["eDensity"]⟩ "eDensity") ∧
    ("# c/f_set1_param1_eDensity.csv" ∈
      mode3_pair_block ⟨["0001", "0002"], "b/", "Iv", "log", "c/", "f"⟩ 1 1 0
        ⟨"x", "0.5", "y", ["p1", "p2"], ["eDensity"]⟩ "eDensity") := by
  have h := c6_mode3_strict ⟨["0001", "0002"], "b/", "Iv", "log", "c/", "f"⟩ 1 1 0
    ⟨"x", "0.5", "y", ["p1", "p2"], ["eDensity"]⟩ "eDensity" 1 (by decide)
  refine ⟨by decide, ?_, ?_⟩
  · have he : "create_cutline -plot Plot_C1(Iv_eDensity_0002_des) -type y -at p2" =
        ("create_cutline -plot " ++
          (("Plot_" ++ cp_dset_name 1 (((["0001", "0002"] : List String).map (file_base_name "Iv" "eDensity")).getD 1 "")) ++
            (" -type " ++ ("y" ++ (" -at " ++ (["p1", "p2"] : List String).getD 1 ""))))) := by
      decide
    rw [he]
    exact h.1
  · have he : "# c/f_set1_param1_eDensity.csv" =
        ("# " ++ ("c/" ++ ("f" ++ ("_set" ++ (toString 1 ++
          ("_param" ++ (toString (0 + 1) ++ ("_" ++ ("eDensity" ++ ".csv"))))))))) := by
      decide
    rw [he]
    exact h.2

/-! ### Claim C2: the Mode 3 set/parameter counter and identifier non-collision -/

/-- Observation helper: the Mode 3 double loop's `(counter, set_idx, param_idx,
cutset, parameter)` tuples in iteration order, the counter continuing across
sets exactly as `set_parameter_counter` does. -/
def mode3_pairs_from : Nat → Nat → List CutSet → List (Nat × Nat × Nat × CutSet × String)
  | _, _, [] => []
  | si, k0, cs :: rest =>
    (List.range cs.parameters.length).map
      (fun j => (k0 + j + 1, si, j, cs, cs.parameters.getD j "")) ++
    mode3_pairs_from (si + 1) (k0 + cs.parameters.length) rest

theorem mode3_params_loop_eq (ctx : Mode3Ctx) (si : Nat) (cs : CutSet) :
    ∀ (ps : List String) (pi0 k0 : Nat),
      mode3_params_loop ctx si cs pi0 k0 ps =
        ((List.range ps.length).flatMap
          (fun j => mode3_pair_block ctx (k0 + j + 1) si (pi0 + j) cs (ps.getD j "")),
         k0 + ps.length) := by
  intro ps
  induction ps with
  | nil =>
    intro pi0 k0
    simp [mode3_params_loop]
  | cons p ps' ih =>
    intro pi0 k0
    have h0 : mode3_pair_block ctx (k0 + 0 + 1) si (pi0 + 0) cs ((p :: ps').getD 0 "") =
        mode3_pair_block ctx (k0 + 1) si pi0 cs p := rfl
    have hfe : (fun a : Nat => mode3_pair_block ctx (k0 + a.succ + 1) si (pi0 + a.succ) cs
        ((p :: ps').getD a.succ "")) =
        (fun j => mode3_pair_block ctx (k0 + 1 + j + 1) si (pi0 + 1 + j) cs (ps'.getD j "")) := by
      funext a
      rw [show k0 + a.succ + 1 = k0 + 1 + a + 1 by omega,
          show pi0 + a.succ = pi0 + 1 + a by omega,
          show (p :: ps').getD a.succ "" = ps'.getD a "" from rfl]
    have hrange : (List.range (p :: ps').length).flatMap
        (fun j => mode3_pair_block ctx (k0 + j + 1) si (pi0 + j) cs ((p :: ps').getD j "")) =
        mode3_pair_block ctx (k0 + 1) si pi0 cs p ++
        (List.range ps'.length).flatMap
          (fun j => mode3_pair_block ctx (k0 + 1 + j + 1) si (pi0 + 1 + j) cs (ps'.getD j "")) := by
      rw [List.length_cons, List.range_succ_eq_map, List.flatMap_cons, List.flatMap_map, h0]
      rw [hfe]
    simp only [mode3_params_loop]
    rw [ih (pi0 + 1) (k0 + 1), hrange]
    rw [show k0 + 1 + ps'.length = k0 + (p :: ps').length from by
      rw [List.length_cons]
      omega]

theorem mode3_sets_loop_eq (ctx : Mode3Ctx) :
    ∀ (sets : List CutSet) (si k0 : Nat),
      mode3_sets_loop ctx si k0 sets =
        ((mode3_pairs_from si k0 sets).flatMap
          (fun q => mode3_pair_block ctx q.1 q.2.1 q.2.2.1 q.2.2.2.1 q.2.2.2.2),
         k0 + (sets.map (fun s => s.parameters.length)).sum) := by
  intro sets
  induction sets with
  | nil =>
    intro si k0
    simp [mode3_sets_loop, mode3_pairs_from]
  | cons cs rest ih =>
    intro si k0
    simp only [mode3_sets_loop]
    rw [mode3_params_loop_eq ctx si cs cs.parameters 0 k0]
    rw [ih (si + 1) (k0 + cs.parameters.length)]
    refine Prod.ext ?_ ?_
    · show _ ++ _ = _
      simp only [mode3_pairs_from, List.flatMap_append, List.flatMap_map]
      congr 1
      congr 1
      funext j
      simp
    · show (k0 + cs.parameters.length) + _ = _
      simp only [List.map_cons, List.sum_cons]
      omega

theorem mode3_pairs_from_counters :
    ∀ (sets : List CutSet) (si k0 : Nat),
      (mode3_pairs_from si k0 sets).map (fun q => q.1) =
        (List.range (sets.map (fun s => s.parameters.length)).sum).map (fun j => k0 + j + 1) := by
  intro sets
  induction sets with
  | nil =>
    intro si k0
    simp [mode3_pairs_from]
  | cons cs rest ih =>
    intro si k0
    simp only [mode3_pairs_from, List.map_append, List.map_map, List.map_cons, List.sum_cons]
    rw [ih (si + 1) (k0 + cs.parameters.length)]
    rw [List.range_add, List.map_append, List.map_map]
    have h1 : ((fun q : Nat × Nat × Nat × CutSet × String => q.1) ∘
        (fun j => (k0 + j + 1, si, j, cs, cs.parameters.getD j ""))) = (fun j => k0 + j + 1) := by
      funext j
      rfl
    have h2 : (fun j => k0 + cs.parameters.length + j + 1) =
        ((fun j => k0 + j + 1) ∘ fun x => cs.parameters.length + x) := by
      funext j
      show k0 + cs.parameters.length + j + 1 = k0 + (cs.parameters.length + j) + 1
      omega
    rw [h1, h2]

/-- The spec's C2 instance: 3 TDR codes shared by 2 sets with one parameter each. -/
def c2_input : Mode3Input :=
  ⟨["0001", "0002", "0003"], "b", "pfx", "Iv",
   [⟨"x", "0.5", "y", ["p1", "p2", "p3"], "eDensity", "yes"⟩,
    ⟨"x", "0.6", "y", ["q1", "q2", "q3"], "hDensity", "no"⟩], "log", "c", "f"⟩

/-- Claim C2: Mode 3 maintains a single counter incremented exactly once per
`(set, parameter)` pair in iteration order — the pair at position `j` is
namespaced by counter `j + 1` — and distinct counters produce distinct
cutplane and cutline identifiers, so identifiers of distinct pairs never
collide; on the spec's instance (3 TDR codes, 2 sets with one parameter each)
the identifiers are `C1(...)` and `C2(...)` and exactly 2 independent 1D
plots and 2 CSV exports are produced. -/
theorem c2_mode3_counter (inp : Mode3Input) (sets : List CutSet)
    (hc : collect_cutplane_cutline_sets inp.raw_sets = some sets) :
    generate_mode3_commands inp =
      (mode3_pairs_from 1 0 sets).flatMap
        (fun q => mode3_pair_block (mode3_ctx inp) q.1 q.2.1 q.2.2.1 q.2.2.2.1 q.2.2.2.2) ∧
    (mode3_pairs_from 1 0 sets).map (fun q => q.1) =
      (List.range (sets.map (fun s => s.parameters.length)).sum).map (fun j => j + 1) ∧
    (∀ (k₁ k₂ : Nat) (a b : String), k₁ ≠ k₂ →
      cp_dset_name k₁ a ≠ cp_dset_name k₂ b ∧ cl_dset_name k₁ a ≠ cl_dset_name k₂ b) ∧
    ((generate_mode3_commands c2_input).countP
        (fun l => strStarts "create_plot " l && strEnds " -1d" l) = 2 ∧
     (generate_mode3_commands c2_input).countP (fun l => strStarts "export_curves " l) = 2 ∧
     (generate_mode3_commands c2_input).contains "# C1(Iv_eDensity_0001_des)" = true ∧
     (generate_mode3_commands c2_input).contains "# C2(Iv_hDensity_0001_des)" = true) := by
  refine ⟨?_, ?_, ?_, by decide, by decide, by decide, by decide⟩
  · unfold generate_mode3_commands
    rw [hc]
    show (mode3_sets_loop (mode3_ctx inp) 1 0 sets).1 = _
    rw [mode3_sets_loop_eq (mode3_ctx inp) sets 1 0]
  · rw [mode3_pairs_from_counters sets 1 0]
    congr 1
    funext j
    omega
  · intro k₁ k₂ a b hk
    exact ⟨cp_dset_name_ne k₁ k₂ a b hk, cl_dset_name_ne k₁ k₂ a b hk⟩

/-- Witness for C2 at the spec's instance: the collection yields the two sets
and the pair counters are exactly `[1, 2]`. -/
theorem c2_witness :
    collect_cutplane_cutline_sets c2_input.raw_sets =
      some [⟨"x", "0.5", "y", ["p1", "p2", "p3"], ["eDensity"]⟩,
            ⟨"x", "0.6", "y", ["q1", "q2", "q3"], ["hDensity"]⟩] ∧
    (mode3_pairs_from 1 0
      [⟨"x", "0.5", "y", ["p1", "p2", "p3"], ["eDensity"]⟩,
       ⟨"x", "0.6", "y", ["q1", "q2", "q3"], ["hDensity"]⟩]).map (fun q => q.1) = [1, 2] := by
  refine ⟨by decide, ?_⟩
  have h := (c2_mode3_counter c2_input
    [⟨"x", "0.5", "y", ["p1", "p2", "p3"], ["eDensity"]⟩,
     ⟨"x", "0.6", "y", ["q1", "q2", "q3"], ["hDensity"]⟩] (by decide)).2.1
  rw [h]
  decide

/-! ### Line-head decision lemmas for counting commands by their verb -/


@[simp] theorem ms1 (r : String) : strStarts "load_file " ("load_file " ++ r) = true :=
  strStarts_append_true _ _ r (by decide)

@[simp] theorem ms2 (r : String) : strStarts "load_file " ("create_plot -dataset " ++ r) = false :=
  strStarts_append_false _ _ r (by decide)

@[simp] theorem ms3 (r : String) : strStarts "load_file " ("select_plots \x7b" ++ r) = false :=
  strStarts_append_false _ _ r (by decide)

@[simp] theorem ms4 (r : String) : strStarts "load_file " ("select_plots \x7bPlot_" ++ r) = false :=
  strStarts_append_false _ _ r (by decide)

@[simp] theorem ms5 (r : String) : strStarts "load_file " ("# " ++ r) = false :=
  strStarts_append_false _ _ r (by decide)

@[simp] theorem ms6 (r : String) : strStarts "load_file " ("# Plot_" ++ r) = false :=
  strStarts_append_false _ _ r (by decide)

@[simp] theorem ms7 (r : String) : strStarts "load_file " ("# Curve_" ++ r) = false :=
  strStarts_append_false _ _ r (by decide)

@[simp] theorem ms8 (r : String) : strStarts "load_file " ("link_plots \x7b" ++ r) = false :=
  strStarts_append_false _ _ r (by decide)

@[simp] theorem ms9 (r : String) : strStarts "load_file " ("set_field_prop " ++ r) = false :=
  strStarts_append_false _ _ r (by decide)

@[simp] theorem ms10 (r : String) : strStarts "load_file " ("create_cutplane -plot " ++ r) = false :=
  strStarts_append_false _ _ r (by decide)

@[simp] theorem ms11 (r : String) : strStarts "load_file " ("create_cutline -plot " ++ r) = false :=
  strStarts_append_false _ _ r (by decide)

@[simp] theorem ms12 (r : String) : strStarts "load_file " ("create_curve -axisX " ++ r) = false :=
  strStarts_append_false _ _ r (by decide)

@[simp] theorem ms13 (r : String) : strStarts "load_file " ("set_axis_prop -plot " ++ r) = false :=
  strStarts_append_false _ _ r (by decide)

@[simp] theorem ms14 (r : String) : strStarts "load_file " ("export_curves \x7b" ++ r) = false :=
  strStarts_append_false _ _ r (by decide)

@[simp] theorem ms15 (r : String) : strStarts "link_plots" ("load_file " ++ r) = false :=
  strStarts_append_false _ _ r (by decide)

@[simp] theorem ms16 (r : String) : strStarts "link_plots" ("create_plot -dataset " ++ r) = false :=
  strStarts_append_false _ _ r (by decide)

@[simp] theorem ms17 (r : String) : strStarts "link_plots" ("select_plots \x7b" ++ r) = false :=
  strStarts_append_false _ _ r (by decide)

@[simp] theorem ms18 (r : String) : strStarts "link_plots" ("select_plots \x7bPlot_" ++ r) = false :=
  strStarts_append_false _ _ r (by decide)

@[simp] theorem ms19 (r : String) : strStarts "link_plots" ("# " ++ r) = false :=
  strStarts_append_false _ _ r (by decide)

@[simp] theorem ms20 (r : String) : strStarts "link_plots" ("# Plot_" ++ r) = false :=
  strStarts_append_false _ _ r (by decide)

@[simp] theorem ms21 (r : String) : strStarts "link_plots" ("# Curve_" ++ r) = false :=
  strStarts_append_false _ _ r (by decide)

@[simp] theorem ms22 (r : String) : strStarts "link_plots" ("link_plots \x7b" ++ r) = true :=
  strStarts_append_true _ _ r (by decide)

@[simp] theorem ms23 (r : String) : strStarts "link_plots" ("set_field_prop " ++ r) = false :=
  strStarts_append_false _ _ r (by decide)

@[simp] theorem ms24 (r : String) : strStarts "link_plots" ("create_cutplane -plot " ++ r) = false :=
  strStarts_append_false _ _ r (by decide)

@[simp] theorem ms25 (r : String) : strStarts "link_plots" ("create_cutline -plot " ++ r) = false :=
  strStarts_append_false _ _ r (by decide)

@[simp] theorem ms26 (r : String) : strStarts "link_plots" ("create_curve -axisX " ++ r) = false :=
  strStarts_append_false _ _ r (by decide)

@[simp] theorem ms27 (r : String) : strStarts "link_plots" ("set_axis_prop -plot " ++ r) = false :=
  strStarts_append_false _ _ r (by decide)

@[simp] theorem ms28 (r : String) : strStarts "link_plots" ("export_curves \x7b" ++ r) = false :=
  strStarts_append_false _ _ r (by decide)

@[simp] theorem ms29 (r : String) : strStarts "create_cutplane " ("load_file " ++ r) = false :=
  strStarts_append_false _ _ r (by decide)

@[simp] theorem ms30 (r : String) : strStarts "create_cutplane " ("create_plot -dataset " ++ r) = false :=
  strStarts_append_false _ _ r (by decide)

@[simp] theorem ms31 (r : String) : strStarts "create_cutplane " ("select_plots \x7b" ++ r) = false :=
  strStarts_append_false _ _ r (by decide)

@[simp] theorem ms32 (r : String) : strStarts "create_cutplane " ("select_plots \x7bPlot_" ++ r) = false :=
  strStarts_append_false _ _ r (by decide)

@[simp] theorem ms33 (r : String) : strStarts "create_cutplane " ("# " ++ r) = false :=
  strStarts_append_false _ _ r (by decide)

@[simp] theorem ms34 (r : String) : strStarts "create_cutplane " ("# Plot_" ++ r) = false :=
  strStarts_append_false _ _ r (by decide)

@[simp] theorem ms35 (r : String) : strStarts "create_cutplane " ("# Curve_" ++ r) = false :=
  strStarts_append_false _ _ r (by decide)

@[simp] theorem ms36 (r : String) : strStarts "create_cutplane " ("link_plots \x7b" ++ r) = false :=
  strStarts_append_false _ _ r (by decide)

@[simp] theorem ms37 (r : String) : strStarts "create_cutplane " ("set_field_prop " ++ r) = false :=
  strStarts_append_false _ _ r (by decide)

@[simp] theorem ms38 (r : String) : strStarts "create_cutplane " ("create_cutplane -plot " ++ r) = true :=
  strStarts_append_true _ _ r (by decide)

@[simp] theorem ms39 (r : String) : strStarts "create_cutplane " ("create_cutline -plot " ++ r) = false :=
  strStarts_append_false _ _ r (by decide)

@[simp] theorem ms40 (r : String) : strStarts "create_cutplane " ("create_curve -axisX " ++ r) = false :=
  strStarts_append_false _ _ r (by decide)

@[simp] theorem ms41 (r : String) : strStarts "create_cutplane " ("set_axis_prop -plot " ++ r) = false :=
  strStarts_append_false _ _ r (by decide)

@[simp] theorem ms42 (r : String) : strStarts "create_cutplane " ("export_curves \x7b" ++ r) = false :=
  strStarts_append_false _ _ r (by decide)

@[simp] theorem ms43 (r : String) : strStarts "create_plot " ("load_file " ++ r) = false :=
  strStarts_append_false _ _ r (by decide)

@[simp] theorem ms44 (r : String) : strStarts "create_plot " ("create_plot -dataset " ++ r) = true :=
  strStarts_append_true _ _ r (by decide)

@[simp] theorem ms45 (r : String) : strStarts "create_plot " ("select_plots \x7b" ++ r) = false :=
  strStarts_append_false _ _ r (by decide)

@[simp] theorem ms46 (r : String) : strStarts "create_plot " ("select_plots \x7bPlot_" ++ r) = false :=
  strStarts_append_false _ _ r (by decide)

@[simp] theorem ms47 (r : String) : strStarts "create_plot " ("# " ++ r) = false :=
  strStarts_append_false _ _ r (by decide)

@[simp] theorem ms48 (r : String) : strStarts "create_plot " ("# Plot_" ++ r) = false :=
  strStarts_append_false _ _ r (by decide)

@[simp] theorem ms49 (r : String) : strStarts "create_plot " ("# Curve_" ++ r) = false :=
  strStarts_append_false _ _ r (by decide)

@[simp] theorem ms50 (r : String) : strStarts "create_plot " ("link_plots \x7b" ++ r) = false :=
  strStarts_append_false _ _ r (by decide)

@[simp] theorem ms51 (r : String) : strStarts "create_plot " ("set_field_prop " ++ r) = false :=
  strStarts_append_false _ _ r (by decide)

@[simp] theorem ms52 (r : String) : strStarts "create_plot " ("create_cutplane -plot " ++ r) = false :=
  strStarts_append_false _ _ r (by decide)

@[simp] theorem ms53 (r : String) : strStarts "create_plot " ("create_cutline -plot " ++ r) = false :=
  strStarts_append_false _ _ r (by decide)

@[simp] theorem ms54 (r : String) : strStarts "create_plot " ("create_curve -axisX " ++ r) = false :=
  strStarts_append_false _ _ r (by decide)

@[simp] theorem ms55 (r : String) : strStarts "create_plot " ("set_axis_prop -plot " ++ r) = false :=
  strStarts_append_false _ _ r (by decide)

@[simp] theorem ms56 (r : String) : strStarts "create_plot " ("export_curves \x7b" ++ r) = false :=
  strStarts_append_false _ _ r (by decide)

@[simp] theorem ms57 (r : String) : strStarts "create_cutline " ("load_file " ++ r) = false :=
  strStarts_append_false _ _ r (by decide)

@[simp] theorem ms58 (r : String) : strStarts "create_cutline " ("create_plot -dataset " ++ r) = false :=
  strStarts_append_false _ _ r (by decide)

@[simp] theorem ms59 (r : String) : strStarts "create_cutline " ("select_plots \x7b" ++ r) = false :=
  strStarts_append_false _ _ r (by decide)

@[simp] theorem ms60 (r : String) : strStarts "create_cutline " ("select_plots \x7bPlot_" ++ r) = false :=
  strStarts_append_false _ _ r (by decide)

@[simp] theorem ms61 (r : String) : strStarts "create_cutline " ("# " ++ r) = false :=
  strStarts_append_false _ _ r (by decide)

@[simp] theorem ms62 (r : String) : strStarts "create_cutline " ("# Plot_" ++ r) = false :=
  strStarts_append_false _ _ r (by decide)

@[simp] theorem ms63 (r : String) : strStarts "create_cutline " ("# Curve_" ++ r) = false :=
  strStarts_append_false _ _ r (by decide)

@[simp] theorem ms64 (r : String) : strStarts "create_cutline " ("link_plots \x7b" ++ r) = false :=
  strStarts_append_false _ _ r (by decide)

@[simp] theorem ms65 (r : String) : strStarts "create_cutline " ("set_field_prop " ++ r) = false :=
  strStarts_append_false _ _ r (by decide)

@[simp] theorem ms66 (r : String) : strStarts "create_cutline " ("create_cutplane -plot " ++ r) = false :=
  strStarts_append_false _ _ r (by decide)

@[simp] theorem ms67 (r : String) : strStarts "create_cutline " ("create_cutline -plot " ++ r) = true :=
  strStarts_append_true _ _ r (by decide)

@[simp] theorem ms68 (r : String) : strStarts "create_cutline " ("create_curve -axisX " ++ r) = false :=
  strStarts_append_false _ _ r (by decide)

@[simp] theorem ms69 (r : String) : strStarts "create_cutline " ("set_axis_prop -plot " ++ r) = false :=
  strStarts_append_false _ _ r (by decide)

@[simp] theorem ms70 (r : String) : strStarts "create_cutline " ("export_curves \x7b" ++ r) = false :=
  strStarts_append_false _ _ r (by decide)

@[simp] theorem ms71 (r : String) : strStarts "create_curve " ("load_file " ++ r) = false :=
  strStarts_append_false _ _ r (by decide)

@[simp] theorem ms72 (r : String) : strStarts "create_curve " ("create_plot -dataset " ++ r) = false :=
  strStarts_append_false _ _ r (by decide)

@[simp] theorem ms73 (r : String) : strStarts "create_curve " ("select_plots \x7b" ++ r) = false :=
  strStarts_append_false _ _ r (by decide)

@[simp] theorem ms74 (r : String) : strStarts "create_curve " ("select_plots \x7bPlot_" ++ r) = false :=
  strStarts_append_false _ _ r (by decide)

@[simp] theorem ms75 (r : String) : strStarts "create_curve " ("# " ++ r) = false :=
  strStarts_append_false _ _ r (by decide)

@[simp] theorem ms76 (r : String) : strStarts "create_curve " ("# Plot_" ++ r) = false :=
  strStarts_append_false _ _ r (by decide)

@[simp] theorem ms77 (r : String) : strStarts "create_curve " ("# Curve_" ++ r) = false :=
  strStarts_append_false _ _ r (by decide)

@[simp] theorem ms78 (r : String) : strStarts "create_curve " ("link_plots \x7b" ++ r) = false :=
  strStarts_append_false _ _ r (by decide)

@[simp] theorem ms79 (r : String) : strStarts "create_curve " ("set_field_prop " ++ r) = false :=
  strStarts_append_false _ _ r (by decide)

@[simp] theorem ms80 (r : String) : strStarts "create_curve " ("create_cutplane -plot " ++ r) = false :=
  strStarts_append_false _ _ r (by decide)

@[simp] theorem ms81 (r : String) : strStarts "create_curve " ("create_cutline -plot " ++ r) = false :=
  strStarts_append_false _ _ r (by decide)

@[simp] theorem ms82 (r : String) : strStarts "create_curve " ("create_curve -axisX " ++ r) = true :=
  strStarts_append_true _ _ r (by decide)

@[simp] theorem ms83 (r : String) : strStarts "create_curve " ("set_axis_prop -plot " ++ r) = false :=
  strStarts_append_false _ _ r (by decide)

@[simp] theorem ms84 (r : String) : strStarts "create_curve " ("export_curves \x7b" ++ r) = false :=
  strStarts_append_false _ _ r (by decide)

@[simp] theorem ms85 (r : String) : strStarts "export_curves " ("load_file " ++ r) = false :=
  strStarts_append_false _ _ r (by decide)

@[simp] theorem ms86 (r : String) : strStarts "export_curves " ("create_plot -dataset " ++ r) = false :=
  strStarts_append_false _ _ r (by decide)

@[simp] theorem ms87 (r : String) : strStarts "export_curves " ("select_plots \x7b" ++ r) = false :=
  strStarts_append_false _ _ r (by decide)

@[simp] theorem ms88 (r : String) : strStarts "export_curves " ("select_plots \x7bPlot_" ++ r) = false :=
  strStarts_append_false _ _ r (by decide)

@[simp] theorem ms89 (r : String) : strStarts "export_curves " ("# " ++ r) = false :=
  strStarts_append_false _ _ r (by decide)

@[simp] theorem ms90 (r : String) : strStarts "export_curves " ("# Plot_" ++ r) = false :=
  strStarts_append_false _ _ r (by decide)

@[simp] theorem ms91 (r : String) : strStarts "export_curves " ("# Curve_" ++ r) = false :=
  strStarts_append_false _ _ r (by decide)

@[simp] theorem ms92 (r : String) : strStarts "export_curves " ("link_plots \x7b" ++ r) = false :=
  strStarts_append_false _ _ r (by decide)

@[simp] theorem ms93 (r : String) : strStarts "export_curves " ("set_field_prop " ++ r) = false :=
  strStarts_append_false _ _ r (by decide)

@[simp] theorem ms94 (r : String) : strStarts "export_curves " ("create_cutplane -plot " ++ r) = false :=
  strStarts_append_false _ _ r (by decide)

@[simp] theorem ms95 (r : String) : strStarts "export_curves " ("create_cutline -plot " ++ r) = false :=
  strStarts_append_false _ _ r (by decide)

@[simp] theorem ms96 (r : String) : strStarts "export_curves " ("create_curve -axisX " ++ r) = false :=
  strStarts_append_false _ _ r (by decide)

@[simp] theorem ms97 (r : String) : strStarts "export_curves " ("set_axis_prop -plot " ++ r) = false :=
  strStarts_append_false _ _ r (by decide)

@[simp] theorem ms98 (r : String) : strStarts "export_curves " ("export_curves \x7b" ++ r) = true :=
  strStarts_append_true _ _ r (by decide)

@[simp] theorem ms99 (r : String) : strStarts "create_curve " ("create_curve -axisX time -axisY \x7bdrain OuterVoltage\x7d -dataset \x7b" ++ r) = true :=
  strStarts_append_true _ _ r (by decide)

@[simp] theorem ms100 (r : String) : strStarts "create_curve " ("create_curve -axisX time -axisY2 Tmax -dataset \x7b" ++ r) = true :=
  strStarts_append_true _ _ r (by decide)

@[simp] theorem ms101 (r : String) : strStarts "create_curve " ("set_curve_prop \x7bCurve_" ++ r) = false :=
  strStarts_append_false _ _ r (by decide)

@[simp] theorem ms102 (r : String) : strStarts "create_curve " ("set_axis_prop -plot Plot_1 -axis y2 -title \"" ++ r) = false :=
  strStarts_append_false _ _ r (by decide)

@[simp] theorem ms103 (r : String) : strStarts "create_curve " ("set_axis_prop -plot Plot_1 -axis x -title \"" ++ r) = false :=
  strStarts_append_false _ _ r (by decide)

@[simp] theorem ms104 (r : String) : strStarts "create_curve " ("set_axis_prop -plot Plot_1 -axis y -title \"" ++ r) = false :=
  strStarts_append_false _ _ r (by decide)

@[simp] theorem ms105 (r : String) : strStarts "create_curve " ("set_plot_prop -plot \x7bPlot_1\x7d -title \"" ++ r) = false :=
  strStarts_append_false _ _ r (by decide)

@[simp] theorem ms106 (r : String) : strStarts "create_curve " ("set_legend_prop -plot Plot_1 -position \x7b" ++ r) = false :=
  strStarts_append_false _ _ r (by decide)

@[simp] theorem ms107 (r : String) : strStarts "create_curve " ("export_view \x7b" ++ r) = false :=
  strStarts_append_false _ _ r (by decide)

@[simp] theorem ms108 (r : String) : strStarts "set_curve_prop " ("create_curve -axisX time -axisY \x7bdrain OuterVoltage\x7d -dataset \x7b" ++ r) = false :=
  strStarts_append_false _ _ r (by decide)

@[simp] theorem ms109 (r : String) : strStarts "set_curve_prop " ("create_curve -axisX time -axisY2 Tmax -dataset \x7b" ++ r) = false :=
  strStarts_append_false _ _ r (by decide)

@[simp] theorem ms110 (r : String) : strStarts "set_curve_prop " ("set_curve_prop \x7bCurve_" ++ r) = true :=
  strStarts_append_true _ _ r (by decide)

@[simp] theorem ms111 (r : String) : strStarts "set_curve_prop " ("set_axis_prop -plot Plot_1 -axis y2 -title \"" ++ r) = false :=
  strStarts_append_false _ _ r (by decide)

@[simp] theorem ms112 (r : String) : strStarts "set_curve_prop " ("set_axis_prop -plot Plot_1 -axis x -title \"" ++ r) = false :=
  strStarts_append_false _ _ r (by decide)

@[simp] theorem ms113 (r : String) : strStarts "set_curve_prop " ("set_axis_prop -plot Plot_1 -axis y -title \"" ++ r) = false :=
  strStarts_append_false _ _ r (by decide)

@[simp] theorem ms114 (r : String) : strStarts "set_curve_prop " ("set_plot_prop -plot \x7bPlot_1\x7d -title \"" ++ r) = false :=
  strStarts_append_false _ _ r (by decide)

@[simp] theorem ms115 (r : String) : strStarts "set_curve_prop " ("set_legend_prop -plot Plot_1 -position \x7b" ++ r) = false :=
  strStarts_append_false _ _ r (by decide)

@[simp] theorem ms116 (r : String) : strStarts "set_curve_prop " ("export_view \x7b" ++ r) = false :=
  strStarts_append_false _ _ r (by decide)

@[simp] theorem ms117 (r : String) : strStarts "set_curve_prop " ("load_file " ++ r) = false :=
  strStarts_append_false _ _ r (by decide)

@[simp] theorem ms118 (r : String) : strStarts "set_curve_prop " ("# " ++ r) = false :=
  strStarts_append_false _ _ r (by decide)

@[simp] theorem ms119 (r : String) : strStarts "export_curves " ("create_curve -axisX time -axisY \x7bdrain OuterVoltage\x7d -dataset \x7b" ++ r) = false :=
  strStarts_append_false _ _ r (by decide)

@[simp] theorem ms120 (r : String) : strStarts "export_curves " ("create_curve -axisX time -axisY2 Tmax -dataset \x7b" ++ r) = false :=
  strStarts_append_false _ _ r (by decide)

@[simp] theorem ms121 (r : String) : strStarts "export_curves " ("set_curve_prop \x7bCurve_" ++ r) = false :=
  strStarts_append_false _ _ r (by decide)

@[simp] theorem ms122 (r : String) : strStarts "export_curves " ("set_axis_prop -plot Plot_1 -axis y2 -title \"" ++ r) = false :=
  strStarts_append_false _ _ r (by decide)

@[simp] theorem ms123 (r : String) : strStarts "export_curves " ("set_axis_prop -plot Plot_1 -axis x -title \"" ++ r) = false :=
  strStarts_append_false _ _ r (by decide)

@[simp] theorem ms124 (r : String) : strStarts "export_curves " ("set_axis_prop -plot Plot_1 -axis y -title \"" ++ r) = false :=
  strStarts_append_false _ _ r (by decide)

@[simp] theorem ms125 (r : String) : strStarts "export_curves " ("set_plot_prop -plot \x7bPlot_1\x7d -title \"" ++ r) = false :=
  strStarts_append_false _ _ r (by decide)

@[simp] theorem ms126 (r : String) : strStarts "export_curves " ("set_legend_prop -plot Plot_1 -position \x7b" ++ r) = false :=
  strStarts_append_false _ _ r (by decide)

@[simp] theorem ms127 (r : String) : strStarts "export_curves " ("export_view \x7b" ++ r) = false :=
  strStarts_append_false _ _ r (by decide)

@[simp] theorem ml1 : strStarts "load_file " "" = false := by decide

@[simp] theorem ml2 : strStarts "load_file " "# 0" = false := by decide

@[simp] theorem ml3 : strStarts "load_file " "# 1" = false := by decide

@[simp] theorem ml4 : strStarts "link_plots" "" = false := by decide

@[simp] theorem ml5 : strStarts "link_plots" "# 0" = false := by decide

@[simp] theorem ml6 : strStarts "link_plots" "# 1" = false := by decide

@[simp] theorem ml7 : strStarts "create_cutplane " "" = false := by decide

@[simp] theorem ml8 : strStarts "create_cutplane " "# 0" = false := by decide

@[simp] theorem ml9 : strStarts "create_cutplane " "# 1" = false := by decide

@[simp] theorem ml10 : strStarts "create_plot " "" = false := by decide

@[simp] theorem ml11 : strStarts "create_plot " "# 0" = false := by decide

@[simp] theorem ml12 : strStarts "create_plot " "# 1" = false := by decide

@[simp] theorem ml13 : strStarts "create_cutline " "" = false := by decide

@[simp] theorem ml14 : strStarts "create_cutline " "# 0" = false := by decide

@[simp] theorem ml15 : strStarts "create_cutline " "# 1" = false := by decide

@[simp] theorem ml16 : strStarts "create_curve " "" = false := by decide

@[simp] theorem ml17 : strStarts "create_curve " "# 0" = false := by decide

@[simp] theorem ml18 : strStarts "create_curve " "# 1" = false := by decide

@[simp] theorem ml19 : strStarts "export_curves " "" = false := by decide

@[simp] theorem ml20 : strStarts "export_curves " "# 0" = false := by decide

@[simp] theorem ml21 : strStarts "export_curves " "# 1" = false := by decide

@[simp] theorem ml22 : strStarts "create_curve " "create_plot -1d" = false := by decide

@[simp] theorem ml23 : strStarts "create_curve " "select_plots \x7bPlot_1\x7d" = false := by decide

@[simp] theorem ml24 : strStarts "create_curve " "# Plot_1" = false := by decide

@[simp] theorem ml25 : strStarts "create_curve " "set_plot_prop -plot \x7bPlot_1\x7d -frame_width 2" = false := by decide

@[simp] theorem ml26 : strStarts "create_curve " "move_plot -plot Plot_1 -position \x7b0 0\x7d" = false := by decide

@[simp] theorem ml27 : strStarts "set_curve_prop " "create_plot -1d" = false := by decide

@[simp] theorem ml28 : strStarts "set_curve_prop " "select_plots \x7bPlot_1\x7d" = false := by decide

@[simp] theorem ml29 : strStarts "set_curve_prop " "# Plot_1" = false := by decide

@[simp] theorem ml30 : strStarts "set_curve_prop " "set_plot_prop -plot \x7bPlot_1\x7d -frame_width 2" = false := by decide

@[simp] theorem ml31 : strStarts "set_curve_prop " "move_plot -plot Plot_1 -position \x7b0 0\x7d" = false := by decide

@[simp] theorem ml32 : strStarts "set_curve_prop " "" = false := by decide

@[simp] theorem ml33 : strStarts "set_curve_prop " "# 0" = false := by decide

@[simp] theorem ml34 : strStarts "set_curve_prop " "# 1" = false := by decide

@[simp] theorem ml35 : strStarts "export_curves " "create_plot -1d" = false := by decide

@[simp] theorem ml36 : strStarts "export_curves " "select_plots \x7bPlot_1\x7d" = false := by decide

@[simp] theorem ml37 : strStarts "export_curves " "# Plot_1" = false := by decide

@[simp] theorem ml38 : strStarts "export_curves " "set_plot_prop -plot \x7bPlot_1\x7d -frame_width 2" = false := by decide

@[simp] theorem ml39 : strStarts "export_curves " "move_plot -plot Plot_1 -position \x7b0 0\x7d" = false := by decide
@[simp] theorem ml101 : strStarts "load_file " "################################################" = false := by decide

@[simp] theorem ml102 : strStarts "load_file " "# Sentaurus Visual Console - Tcl version 8.6.6 #" = false := by decide

@[simp] theorem ml103 : strStarts "load_file " "# " = false := by decide

@[simp] theorem ml104 : strStarts "link_plots" "################################################" = false := by decide

@[simp] theorem ml105 : strStarts "link_plots" "# Sentaurus Visual Console - Tcl version 8.6.6 #" = false := by decide

@[simp] theorem ml106 : strStarts "link_plots" "# " = false := by decide

@[simp] theorem ml107 : strStarts "create_cutplane " "################################################" = false := by decide

@[simp] theorem ml108 : strStarts "create_cutplane " "# Sentaurus Visual Console - Tcl version 8.6.6 #" = false := by decide

@[simp] theorem ml109 : strStarts "create_cutplane " "# " = false := by decide

@[simp] theorem ml110 : strStarts "create_plot " "################################################" = false := by decide

@[simp] theorem ml111 : strStarts "create_plot " "# Sentaurus Visual Console - Tcl version 8.6.6 #" = false := by decide

@[simp] theorem ml112 : strStarts "create_plot " "# " = false := by decide

@[simp] theorem ml113 : strStarts "create_cutline " "################################################" = false := by decide

@[simp] theorem ml114 : strStarts "create_cutline " "# Sentaurus Visual Console - Tcl version 8.6.6 #" = false := by decide

@[simp] theorem ml115 : strStarts "create_cutline " "# " = false := by decide

@[simp] theorem ml116 : strStarts "create_curve " "################################################" = false := by decide

@[simp] theorem ml117 : strStarts "create_curve " "# Sentaurus Visual Console - Tcl version 8.6.6 #" = false := by decide

@[simp] theorem ml118 : strStarts "create_curve " "# " = false := by decide

@[simp] theorem ml119 : strStarts "export_curves " "################################################" = false := by decide

@[simp] theorem ml120 : strStarts "export_curves " "# Sentaurus Visual Console - Tcl version 8.6.6 #" = false := by decide

@[simp] theorem ml121 : strStarts "export_curves " "# " = false := by decide

@[simp] theorem ml122 : strStarts "set_curve_prop " "################################################" = false := by decide

@[simp] theorem ml123 : strStarts "set_curve_prop " "# Sentaurus Visual Console - Tcl version 8.6.6 #" = false := by decide

@[simp] theorem ml124 : strStarts "set_curve_prop " "# " = false := by decide

/-! ### Tail-literal decision lemmas for recognising the `-1d` plot creations -/

@[simp] theorem se1 (a b : String) : strEnds " -1d" (a ++ (b ++ "_des")) = false := by
  rw [← String.append_assoc]
  exact strEnds_append_false _ _ _ (by decide)

@[simp] theorem se2 (a b c d e : String) :
    strEnds " -1d" (a ++ (b ++ (c ++ (d ++ (e ++ "_des"))))) = false := by
  rw [← String.append_assoc, ← String.append_assoc, ← String.append_assoc, ← String.append_assoc]
  exact strEnds_append_false _ _ _ (by decide)

@[simp] theorem se3 (a b : String) : strEnds " -1d" (a ++ (b ++ " -1d")) = true := by
  rw [← String.append_assoc]
  exact strEnds_append_self _ _

/-- Counting a fixed per-block hit rate across a `flatMap`. -/
theorem countP_flatMap_const {α : Type} (p : String → Bool) (f : α → List String) (k : Nat)
    (hf : ∀ x, (f x).countP p = k) : ∀ l : List α, (l.flatMap f).countP p = l.length * k := by
  intro l
  induction l with
  | nil => simp
  | cons a as ih =>
    rw [List.flatMap_cons, List.countP_append, hf, ih, List.length_cons]
    ring

/-! ### Claim C1: Mode 1 command counts for 2 nodes × 2 TDRs, 1 set, 1 parameter -/

/-- A fully concrete representative of the C1 request shape. -/
def c1_instance : Mode1Input :=
  ⟨["n1_a", "n2_b"], ["0001", "0002"], "no", "b/", "Iv",
   [⟨"x", "0.5", "y", ["p1", "p2"], "eDensity", "no"⟩], "log", "c/", "f"⟩

/-- Claim C1: a Mode 1 request with 2 nodes, 2 TDR codes, the synthetic-last-TDR
flag unset and one set carrying one valid parameter emits exactly 4 load +
dataset-creation groups, exactly 1 `link_plots` command covering all 4 plots,
4 `create_cutplane` commands, 9 `create_plot` commands of which exactly 1 is
the unified `-1d` plot creation (4 dataset creations + 4 cutplane-plot
creations + 1 unified plot, exhibited on the concrete representative), 4
`create_cutline` commands, 4 `create_curve` commands, and exactly 1
`export_curves` command whose CSV path ends in `_set1_param_{parameter}.csv`. -/
theorem c1_mode1_counts (n1 n2 cc1 cc2 bp cv cpax cppos clax q1 q2 pin p y csvp csvf : String)
    (inp : Mode1Input)
    (hinp : inp = ⟨[n1, n2], [cc1, cc2], "no", bp, cv,
      [⟨cpax, cppos, clax, [q1, q2], pin, "no"⟩], y, csvp, csvf⟩)
    (hparse : parse_parameters pin = [p]) (hp : p ∈ parameters) (hax : clax ≠ cpax) :
    (generate_mode1_commands inp).countP (strStarts "load_file ") = 4 ∧
    (generate_mode1_commands inp).countP (strStarts "link_plots") = 1 ∧
    ("link_plots \x7b" ++ (String.intercalate " "
        ((mode1_file_bases [n1, n2] [cc1, cc2] cv p false).map (fun fb => "Plot_" ++ (fb ++ "_des"))) ++ "\x7d")) ∈
      generate_mode1_commands inp ∧
    (mode1_file_bases [n1, n2] [cc1, cc2] cv p false).length = 4 ∧
    (generate_mode1_commands inp).countP (strStarts "create_cutplane ") = 4 ∧
    (generate_mode1_commands inp).countP (strStarts "create_plot ") = 9 ∧
    (generate_mode1_commands inp).countP (fun l => strStarts "create_plot " l && strEnds " -1d" l) = 1 ∧
    (generate_mode1_commands inp).countP (strStarts "create_cutline ") = 4 ∧
    (generate_mode1_commands inp).countP (strStarts "create_curve ") = 4 ∧
    (generate_mode1_commands inp).countP (strStarts "export_curves ") = 1 ∧
    ("# " ++ (ensure_slash csvp ++ (csvf ++ ("_set" ++ (toString 1 ++ ("_param_" ++ (p ++ ".csv"))))))) ∈
      generate_mode1_commands inp ∧
    strEnds ("_set1_param_" ++ (p ++ ".csv"))
      (ensure_slash csvp ++ (csvf ++ ("_set" ++ (toString 1 ++ ("_param_" ++ (p ++ ".csv")))))) = true ∧
    (generate_mode1_commands c1_instance).filter (strStarts "create_plot ") =
      ["create_plot -dataset Iv_eDensity_0001_des",
       "create_plot -dataset Iv_eDensity_0002_des",
       "create_plot -dataset Iv_eDensity_0001_des",
       "create_plot -dataset Iv_eDensity_0002_des",
       "create_plot -dataset C1(Iv_eDensity_0001_des) -ref_plot Plot_Iv_eDensity_0001_des",
       "create_plot -dataset C1(Iv_eDensity_0002_des) -ref_plot Plot_Iv_eDensity_0002_des",
       "create_plot -dataset C1(Iv_eDensity_0001_des) -ref_plot Plot_Iv_eDensity_0001_des",
       "create_plot -dataset C1(Iv_eDensity_0002_des) -ref_plot Plot_Iv_eDensity_0002_des",
       "create_plot -dataset C1(C1(Iv_eDensity_0001_des)) -1d"] := by
  subst hinp
  have hcont : parameters.contains p = true := List.elem_eq_true_of_mem hp
  have hcol : collect_cutplane_cutline_sets
      [⟨cpax, cppos, clax, [q1, q2], pin, "no"⟩] =
      some [⟨cpax, cppos, clax, [q1, q2], [p]⟩] := by
    simp only [collect_cutplane_cutline_sets]
    rw [if_neg hax, hparse]
    simp [hcont, hp]
  have hgen : generate_mode1_commands
      ⟨[n1, n2], [cc1, cc2], "no", bp, cv,
        [⟨cpax, cppos, clax, [q1, q2], pin, "no"⟩], y, csvp, csvf⟩ =
      tcl_header ++
        (mode1_param_block
          (mode1_ctx ⟨[n1, n2], [cc1, cc2], "no", bp, cv,
            [⟨cpax, cppos, clax, [q1, q2], pin, "no"⟩], y, csvp, csvf⟩)
          1 ⟨cpax, cppos, clax, [q1, q2], [p]⟩ 0 p 1).1 := by
    unfold generate_mode1_commands
    rw [hcol]
    simp only [mode1_sets_loop, mode1_params_loop, List.append_nil]
  have hpb : (mode1_param_block
      (mode1_ctx ⟨[n1, n2], [cc1, cc2], "no", bp, cv,
        [⟨cpax, cppos, clax, [q1, q2], pin, "no"⟩], y, csvp, csvf⟩)
      1 ⟨cpax, cppos, clax, [q1, q2], [p]⟩ 0 p 1).1 =
      (mode1_file_bases [n1, n2] [cc1, cc2] cv p false).flatMap (load_group (ensure_slash bp)) ++
      link_block (mode1_file_bases [n1, n2] [cc1, cc2] cv p false) ++
      mode1_field_block p
        ((mode1_file_bases [n1, n2] [cc1, cc2] cv p false).map (fun fb => "Plot_" ++ (fb ++ "_des"))) ++
      (mode1_file_bases [n1, n2] [cc1, cc2] cv p false).flatMap (cutplane_block 1 cpax cppos) ++
      (mode1_file_bases [n1, n2] [cc1, cc2] cv p false).flatMap (cutplane_plot_block 1) ++
      mode1_cutlines 1 clax [q1, q2] 0 (mode1_file_bases [n1, n2] [cc1, cc2] cv p false) ++
      mode1_unified_block 1 0 ((mode1_file_bases [n1, n2] [cc1, cc2] cv p false).headD "") ++
      (mode1_curves 1 (get_axis_mapping cpax clax) p (norm_y_axis y)
        (mode1_unified_plot 1 0 ((mode1_file_bases [n1, n2] [cc1, cc2] cv p false).headD ""))
        1 (mode1_file_bases [n1, n2] [cc1, cc2] cv p false)).1 ++
      mode1_export_block 1 p (ensure_slash csvp) csvf
        (mode1_unified_plot 1 0 ((mode1_file_bases [n1, n2] [cc1, cc2] cv p false).headD ""))
        (mode1_curves 1 (get_axis_mapping cpax clax) p (norm_y_axis y)
          (mode1_unified_plot 1 0 ((mode1_file_bases [n1, n2] [cc1, cc2] cv p false).headD ""))
          1 (mode1_file_bases [n1, n2] [cc1, cc2] cv p false)).2.1 := rfl
  have hfbs : mode1_file_bases [n1, n2] [cc1, cc2] cv p false =
      [file_base_name cv p cc1, file_base_name cv p cc2,
       file_base_name cv p cc1, file_base_name cv p cc2] := by
    simp [mode1_file_bases]
  refine ⟨?_, ?_, ?_, ?_, ?_, ?_, ?_, ?_, ?_, ?_, ?_, ?_, ?_⟩
  · rw [hgen, hpb, hfbs]
    simp [load_group, link_block, mode1_field_block, cutplane_block, cutplane_plot_block,
      mode1_cutlines, mode1_cutline_block, mode1_unified_block, mode1_curves, mode1_curve_block,
      mode1_export_block, tcl_header, List.countP_append, List.countP_cons, List.countP_nil]
  · rw [hgen, hpb, hfbs]
    simp [load_group, link_block, mode1_field_block, cutplane_block, cutplane_plot_block,
      mode1_cutlines, mode1_cutline_block, mode1_unified_block, mode1_curves, mode1_curve_block,
      mode1_export_block, tcl_header, List.countP_append, List.countP_cons, List.countP_nil]
  · rw [hgen]
    apply List.mem_append_right
    rw [hpb]
    apply List.mem_append_left
    apply List.mem_append_left
    apply List.mem_append_left
    apply List.mem_append_left
    apply List.mem_append_left
    apply List.mem_append_left
    apply List.mem_append_left
    apply List.mem_append_right
    simp [link_block]
  · rw [hfbs]
    rfl
  · rw [hgen, hpb, hfbs]
    simp [load_group, link_block, mode1_field_block, cutplane_block, cutplane_plot_block,
      mode1_cutlines, mode1_cutline_block, mode1_unified_block, mode1_curves, mode1_curve_block,
      mode1_export_block, tcl_header, List.countP_append, List.countP_cons, List.countP_nil]
  · rw [hgen, hpb, hfbs]
    simp [load_group, link_block, mode1_field_block, cutplane_block, cutplane_plot_block,
      mode1_cutlines, mode1_cutline_block, mode1_unified_block, mode1_curves, mode1_curve_block,
      mode1_export_block, tcl_header, List.countP_append, List.countP_cons, List.countP_nil]
  · rw [hgen, hpb, hfbs]
    simp [load_group, link_block, mode1_field_block, cutplane_block, cutplane_plot_block,
      mode1_cutlines, mode1_cutline_block, mode1_unified_block, mode1_curves, mode1_curve_block,
      mode1_export_block, tcl_header, List.countP_append, List.countP_cons, List.countP_nil]
  · rw [hgen, hpb, hfbs]
    simp [load_group, link_block, mode1_field_block, cutplane_block, cutplane_plot_block,
      mode1_cutlines, mode1_cutline_block, mode1_unified_block, mode1_curves, mode1_curve_block,
      mode1_export_block, tcl_header, List.countP_append, List.countP_cons, List.countP_nil]
  · rw [hgen, hpb, hfbs]
    simp [load_group, link_block, mode1_field_block, cutplane_block, cutplane_plot_block,
      mode1_cutlines, mode1_cutline_block, mode1_unified_block, mode1_curves, mode1_curve_block,
      mode1_export_block, tcl_header, List.countP_append, List.countP_cons, List.countP_nil]
  · rw [hgen, hpb, hfbs]
    simp [load_group, link_block, mode1_field_block, cutplane_block, cutplane_plot_block,
      mode1_cutlines, mode1_cutline_block, mode1_unified_block, mode1_curves, mode1_curve_block,
      mode1_export_block, tcl_header, List.countP_append, List.countP_cons, List.countP_nil]
  · rw [hgen]
    apply List.mem_append_right
    rw [hpb]
    apply List.mem_append_right
    simp [mode1_export_block]
  · have hx : ("_set" ++ (toString 1 ++ ("_param_" ++ (p ++ ".csv")))) =
        ("_set1_param_" ++ (p ++ ".csv")) := by
      rw [show (toString 1 : String) = "1" from by decide]
      rw [show ("_set1_param_" : String) = "_set" ++ ("1" ++ "_param_") from by decide]
      rw [String.append_assoc, String.append_assoc]
    rw [hx, ← String.append_assoc, ← String.append_assoc]
    exact strEnds_append_self _ _
  · decide


/-- Witness for C1 at the concrete representative request. -/
theorem c1_witness :
    (parse_parameters "eDensity" = ["eDensity"] ∧ "eDensity" ∈ parameters ∧ ("y" : String) ≠ "x") ∧
    (generate_mode1_commands c1_instance).countP (strStarts "load_file ") = 4 ∧
    (generate_mode1_commands c1_instance).countP (strStarts "export_curves ") = 1 := by
  have h := c1_mode1_counts "n1_a" "n2_b" "0001" "0002" "b/" "Iv" "x" "0.5" "y" "p1" "p2"
    "eDensity" "eDensity" "log" "c/" "f" c1_instance rfl (by decide) (by decide) (by decide)
  exact ⟨⟨by decide, by decide, by decide⟩, h.1, h.2.2.2.2.2.2.2.2.2.1⟩

@[simp] theorem ms200 (r : String) : strStarts "set_curve_prop " ("export_curves \x7b" ++ r) = false :=
  strStarts_append_false _ _ r (by decide)

/-! ### Claim C4: Mode 2 curve numbering, styling and export -/

/-- Claim C4: a Mode 2 request with `N ≥ 1` node pairs produces exactly two
multi-dataset `create_curve` commands whose emitted curve names are
`Curve_1 .. Curve_N` (primary Y-axis) and `Curve_{N+1} .. Curve_{2N}`
(Y2-axis); every Y2 curve is styled dash + width 2 + palette color `i mod 6`
+ hidden legend, every Y-axis curve gets the width-only styling command; the
`set_curve_prop` commands are exactly the `4N` Y2-styling, `N` Y-width and
`N` relabelling ones (`6N` total); and the single `export_curves` command
references all `2N` curve identifiers. -/
theorem c4_mode2_curves (inp : Mode2Input) (first : String × String)
    (rest : List (String × String)) (h : inp.nodes_data = first :: rest) :
    generate_mode2_commands inp = Except.ok (mode2_cmds inp first) ∧
    (mode2_cmds inp first).countP (strStarts "create_curve ") = 2 ∧
    ("# " ++ String.intercalate " "
        ((List.range inp.nodes_data.length).map (fun i => "Curve_" ++ toString (i + 1)))) ∈
      mode2_cmds inp first ∧
    ("# " ++ String.intercalate " "
        ((List.range inp.nodes_data.length).map
          (fun i => "Curve_" ++ toString (inp.nodes_data.length + 1 + i)))) ∈
      mode2_cmds inp first ∧
    (∀ i, i < inp.nodes_data.length →
      ("set_curve_prop \x7bCurve_" ++ (toString (inp.nodes_data.length + 1 + i) ++
          "\x7d -plot Plot_1 -line_style dash")) ∈ mode2_cmds inp first ∧
      ("set_curve_prop \x7bCurve_" ++ (toString (inp.nodes_data.length + 1 + i) ++
          "\x7d -plot Plot_1 -line_width 2")) ∈ mode2_cmds inp first ∧
      ("set_curve_prop \x7bCurve_" ++ (toString (inp.nodes_data.length + 1 + i) ++
          ("\x7d -plot Plot_1 -color " ++ mode2_colors.getD (i % mode2_colors.length) ""))) ∈
        mode2_cmds inp first ∧
      ("set_curve_prop \x7bCurve_" ++ (toString (inp.nodes_data.length + 1 + i) ++
          "\x7d -plot Plot_1 -hide_legend")) ∈ mode2_cmds inp first ∧
      ("set_curve_prop \x7bCurve_" ++ (toString (i + 1) ++
          "\x7d -plot Plot_1 -line_width 2")) ∈ mode2_cmds inp first) ∧
    (mode2_cmds inp first).countP (strStarts "set_curve_prop ") = 6 * inp.nodes_data.length ∧
    ("export_curves \x7b" ++ (String.intercalate " "
        ((List.range (inp.nodes_data.length * 2)).map (fun i => "Curve_" ++ toString (i + 1))) ++
      ("\x7d -plot Plot_1 -filename " ++
        ((ensure_slash inp.csv_export_path ++ (inp.csv_filename ++ ".csv")) ++ " -format csv")))) ∈
      mode2_cmds inp first ∧
    (mode2_cmds inp first).countP (strStarts "export_curves ") = 1 := by
  have hok : generate_mode2_commands inp = Except.ok (mode2_cmds inp first) := by
    unfold generate_mode2_commands mode2_body
    rw [h]
  refine ⟨hok, ?_, ?_, ?_, ?_, ?_, ?_, ?_⟩
  · have hload : ∀ vn : String × String,
        (["load_file " ++ (ensure_slash inp.base_path ++ (inp.plt_pfx ++ ("_" ++ (vn.1 ++ ("_" ++ (vn.2 ++ "_des.plt")))))),
          "# " ++ mode2_dataset inp.plt_pfx vn] : List String).countP (strStarts "create_curve ") = 0 := by
      intro vn
      simp
    have h6 : ∀ i, (mode2_y2_style_block inp.nodes_data.length i).countP (strStarts "create_curve ") = 0 := by
      intro i
      simp [mode2_y2_style_block]
    have h7 : ∀ i, (mode2_y_style_block i).countP (strStarts "create_curve ") = 0 := by
      intro i
      simp [mode2_y_style_block]
    have hlab : ∀ iv : Nat × (String × String),
        (mode2_label_block iv.1 iv.2.1).countP (strStarts "create_curve ") = 0 := by
      intro iv
      simp [mode2_label_block]
    simp only [mode2_cmds, List.countP_append]
    rw [countP_flatMap_const _ _ 0 hload (inp.nodes_data.drop 1),
        countP_flatMap_const _ _ 0 h6 (List.range inp.nodes_data.length),
        countP_flatMap_const _ _ 0 h7 (List.range inp.nodes_data.length),
        countP_flatMap_const _ _ 0 hlab inp.nodes_data.enum]
    simp [tcl_header]
  · simp only [mode2_cmds]
    refine List.mem_append_left _ ?_
    refine List.mem_append_left _ ?_
    refine List.mem_append_left _ ?_
    refine List.mem_append_left _ ?_
    refine List.mem_append_left _ ?_
    refine List.mem_append_left _ ?_
    refine List.mem_append_left _ ?_
    refine List.mem_append_left _ ?_
    refine List.mem_append_left _ ?_
    refine List.mem_append_left _ ?_
    refine List.mem_append_right _ ?_
    exact List.mem_cons_of_mem _ (List.mem_cons_self _ _)
  · simp only [mode2_cmds]
    refine List.mem_append_left _ ?_
    refine List.mem_append_left _ ?_
    refine List.mem_append_left _ ?_
    refine List.mem_append_left _ ?_
    refine List.mem_append_left _ ?_
    refine List.mem_append_left _ ?_
    refine List.mem_append_left _ ?_
    refine List.mem_append_left _ ?_
    refine List.mem_append_left _ ?_
    refine List.mem_append_right _ ?_
    exact List.mem_cons_of_mem _ (List.mem_cons_self _ _)
  · intro i hi
    refine ⟨?_, ?_, ?_, ?_, ?_⟩
    · simp only [mode2_cmds]
      refine List.mem_append_left _ ?_
      refine List.mem_append_left _ ?_
      refine List.mem_append_left _ ?_
      refine List.mem_append_left _ ?_
      refine List.mem_append_left _ ?_
      refine List.mem_append_left _ ?_
      refine List.mem_append_left _ ?_
      refine List.mem_append_left _ ?_
      refine List.mem_append_right _ ?_
      refine List.mem_flatMap.2 ⟨i, List.mem_range.2 hi, ?_⟩
      simp [mode2_y2_style_block]
    · simp only [mode2_cmds]
      refine List.mem_append_left _ ?_
      refine List.mem_append_left _ ?_
      refine List.mem_append_left _ ?_
      refine List.mem_append_left _ ?_
      refine List.mem_append_left _ ?_
      refine List.mem_append_left _ ?_
      refine List.mem_append_left _ ?_
      refine List.mem_append_left _ ?_
      refine List.mem_append_right _ ?_
      refine List.mem_flatMap.2 ⟨i, List.mem_range.2 hi, ?_⟩
      simp [mode2_y2_style_block]
    · simp only [mode2_cmds]
      refine List.mem_append_left _ ?_
      refine List.mem_append_left _ ?_
      refine List.mem_append_left _ ?_
      refine List.mem_append_left _ ?_
      refine List.mem_append_left _ ?_
      refine List.mem_append_left _ ?_
      refine List.mem_append_left _ ?_
      refine List.mem_append_left _ ?_
      refine List.mem_append_right _ ?_
      refine List.mem_flatMap.2 ⟨i, List.mem_range.2 hi, ?_⟩
      simp [mode2_y2_style_block]
    · simp only [mode2_cmds]
      refine List.mem_append_left _ ?_
      refine List.mem_append_left _ ?_
      refine List.mem_append_left _ ?_
      refine List.mem_append_left _ ?_
      refine List.mem_append_left _ ?_
      refine List.mem_append_left _ ?_
      refine List.mem_append_left _ ?_
      refine List.mem_append_left _ ?_
      refine List.mem_append_right _ ?_
      refine List.mem_flatMap.2 ⟨i, List.mem_range.2 hi, ?_⟩
      simp [mode2_y2_style_block]
    · simp only [mode2_cmds]
      refine List.mem_append_left _ ?_
      refine List.mem_append_left _ ?_
      refine List.mem_append_left _ ?_
      refine List.mem_append_left _ ?_
      refine List.mem_append_left _ ?_
      refine List.mem_append_left _ ?_
      refine List.mem_append_left _ ?_
      refine List.mem_append_right _ ?_
      refine List.mem_flatMap.2 ⟨i, List.mem_range.2 hi, ?_⟩
      simp [mode2_y_style_block]
  · have hload : ∀ vn : String × String,
        (["load_file " ++ (ensure_slash inp.base_path ++ (inp.plt_pfx ++ ("_" ++ (vn.1 ++ ("_" ++ (vn.2 ++ "_des.plt")))))),
          "# " ++ mode2_dataset inp.plt_pfx vn] : List String).countP (strStarts "set_curve_prop ") = 0 := by
      intro vn
      simp
    have h6 : ∀ i, (mode2_y2_style_block inp.nodes_data.length i).countP (strStarts "set_curve_prop ") = 4 := by
      intro i
      simp [mode2_y2_style_block]
    have h7 : ∀ i, (mode2_y_style_block i).countP (strStarts "set_curve_prop ") = 1 := by
      intro i
      simp [mode2_y_style_block]
    have hlab : ∀ iv : Nat × (String × String),
        (mode2_label_block iv.1 iv.2.1).countP (strStarts "set_curve_prop ") = 1 := by
      intro iv
      simp [mode2_label_block]
    simp only [mode2_cmds, List.countP_append]
    rw [countP_flatMap_const _ _ 0 hload (inp.nodes_data.drop 1),
        countP_flatMap_const _ _ 4 h6 (List.range inp.nodes_data.length),
        countP_flatMap_const _ _ 1 h7 (List.range inp.nodes_data.length),
        countP_flatMap_const _ _ 1 hlab inp.nodes_data.enum]
    simp [tcl_header, List.enum_length]
    omega
  · simp only [mode2_cmds]
    refine List.mem_append_right _ ?_
    exact List.mem_cons_self _ _
  · have hload : ∀ vn : String × String,
        (["load_file " ++ (ensure_slash inp.base_path ++ (inp.plt_pfx ++ ("_" ++ (vn.1 ++ ("_" ++ (vn.2 ++ "_des.plt")))))),
          "# " ++ mode2_dataset inp.plt_pfx vn] : List String).countP (strStarts "export_curves ") = 0 := by
      intro vn
      simp
    have h6 : ∀ i, (mode2_y2_style_block inp.nodes_data.length i).countP (strStarts "export_curves ") = 0 := by
      intro i
      simp [mode2_y2_style_block]
    have h7 : ∀ i, (mode2_y_style_block i).countP (strStarts "export_curves ") = 0 := by
      intro i
      simp [mode2_y_style_block]
    have hlab : ∀ iv : Nat × (String × String),
        (mode2_label_block iv.1 iv.2.1).countP (strStarts "export_curves ") = 0 := by
      intro iv
      simp [mode2_label_block]
    simp only [mode2_cmds, List.countP_append]
    rw [countP_flatMap_const _ _ 0 hload (inp.nodes_data.drop 1),
        countP_flatMap_const _ _ 0 h6 (List.range inp.nodes_data.length),
        countP_flatMap_const _ _ 0 h7 (List.range inp.nodes_data.length),
        countP_flatMap_const _ _ 0 hlab inp.nodes_data.enum]
    simp [tcl_header]

/-- A concrete Mode 2 request with two node pairs, used as the C4 witness. -/
def c4_input : Mode2Input :=
  ⟨"b/", "DeMOS", [("4.5", "n1"), ("4.6", "n2")], "c/", "f", "t", "x", "y", "y2",
   "0.1", "0.9", "p.png"⟩

/-- Witness for C4 at the concrete two-node request. -/
theorem c4_witness :
    c4_input.nodes_data = ("4.5", "n1") :: [("4.6", "n2")] ∧
    generate_mode2_commands c4_input = Except.ok (mode2_cmds c4_input ("4.5", "n1")) ∧
    (mode2_cmds c4_input ("4.5", "n1")).countP (strStarts "set_curve_prop ") =
      6 * c4_input.nodes_data.length := by
  have h := c4_mode2_curves c4_input ("4.5", "n1") [("4.6", "n2")] rfl
  exact ⟨rfl, h.1, h.2.2.2.2.2.1⟩
